import Mathlib

/-
Verification of the visual-asset rendering pipeline of the marketing-ai-engine
repository, as a shallow embedding in Lean 4.

Embedded source files:
  * tools/content/render_asset.py   (field-alias normalization, overlay compositor,
                                     SVG text replacement, HTML generation modes)
  * backend/services/render_service.py        (render orchestration and persistence)
  * backend/services/canva_render_service.py  (Canva external rendering)
  * backend/services/figma_render_service.py  (Figma external rendering; abstracted)

Modelling conventions:
  * Python dicts are association lists (List (String × _)) with Python insertion
    semantics: updating an existing key keeps its position, a new key is appended;
    iteration order is list order.
  * The JSON value universe `PyVal` covers the value shapes the rendering code
    constructs and consumes: strings, integers, decimal literals (kept as their
    literal text, since the code only ever formats them), and lists whose items
    are strings or flat string-valued objects (slide/metric rows).
  * Python set iteration order is run-dependent (string hashing is seeded per
    process).  Every place the rendering code iterates over one of the alias
    sets is therefore parameterized by an order `ord : List String → List String`;
    a "run" fixes one such function, and a valid run permutes each set
    (`SetOrd ord`).  Alias sets are stored as lists in source-literal order.
  * Filesystem, network, XML parsing/serialization, Jinja2 rendering, Playwright
    and storage upload are external effects; they enter as explicit function
    parameters (record `PyEnv` and per-call outcome parameters), so that every
    embedded function is a pure, executable Lean definition.
  * Python exceptions are modelled with `Except PyErr`; `PyErr` distinguishes
    ValueError from PermissionError as the code does.
-/

set_option maxRecDepth 20000
set_option maxHeartbeats 2000000

/-! ## Python string primitives (charwise, kernel-evaluable) -/

/-- Python `str.lower()` (ASCII case folding, which is all the repo uses). -/
def strLower (s : String) : String := ⟨s.data.map Char.toLower⟩

/-- Python `a.startswith(b)`. -/
def strStarts (s pre : String) : Bool := pre.data.isPrefixOf s.data

/-- Python substring containment `pat in s` (contiguous substring). -/
def containsSub (pat : List Char) : List Char → Bool
  | [] => pat.isEmpty
  | c :: rest => pat.isPrefixOf (c :: rest) || containsSub pat rest

/-- Python `pat in s` on strings. -/
def strIn (pat s : String) : Bool := containsSub pat.data s.data

/-- Left-to-right, non-overlapping replacement of a non-empty pattern, with
explicit fuel so that it is structurally recursive (fuel `≥` input length is
always enough, since every step consumes at least one character). -/
def replaceAllFuel (pat rep : List Char) : Nat → List Char → List Char
  | 0, l => l
  | _ + 1, [] => []
  | n + 1, c :: rest =>
    if pat.isPrefixOf (c :: rest) then rep ++ replaceAllFuel pat rep n (List.drop (pat.length - 1) rest)
    else c :: replaceAllFuel pat rep n rest

/-- Python `s.replace(pat, rep)` for a non-empty pattern. -/
def pyReplace (s pat rep : String) : String :=
  ⟨replaceAllFuel pat.data rep.data s.data.length s.data⟩

/-- Python `s.split("\n")` on the character list. -/
def splitNl : List Char → List (List Char)
  | [] => [[]]
  | c :: rest =>
    let r := splitNl rest
    if c = '\n' then [] :: r
    else match r with
      | [] => [[c]]
      | l :: ls => (c :: l) :: ls

/-- Python `s.split("\n")` returning strings. -/
def pySplitNl (s : String) : List String := (splitNl s.data).map List.asString

/-- Helper for `pyTitle`: tracks whether the previous character was alphabetic. -/
def pyTitleAux : Bool → List Char → List Char
  | _, [] => []
  | prevAlpha, c :: rest =>
    (if c.isAlpha then (if prevAlpha then c.toLower else c.toUpper) else c) ::
      pyTitleAux c.isAlpha rest

/-- Python `s.title()` (ASCII): the first letter of each alphabetic run is
uppercased, the rest lowercased. -/
def pyTitle (s : String) : String := ⟨pyTitleAux false s.data⟩

/-- Python truthiness of an `Optional[str]` argument (`None` and `""` are falsy). -/
def optStrTruthy : Option String → Bool
  | none => false
  | some s => s != ""

/-- A single-quote character as a string, kept out of string literals. -/
def sqc : String := ⟨[Char.ofNat 39]⟩

/-! ## The JSON value universe and dict model -/

/-- An item of a JSON array as the rendering code consumes it: either a bare
string or a flat object with string values (slide rows, metric rows). -/
inductive PyItem where
  | str (v : String)
  | obj (fields : List (String × String))
deriving Repr, DecidableEq

/-- A JSON value as the rendering code consumes it.  Decimal literals are kept
as their source text (`dec "1.4"`), because the code only ever formats them
into f-strings and never computes with them. -/
inductive PyVal where
  | str (v : String)
  | int (v : Int)
  | dec (lit : String)
  | list (items : List PyItem)
  | sdict (fields : List (String × String))
deriving Repr, DecidableEq

/-- Python `str(v)` for the values above.  List formatting approximates Python
`repr` quoting; no modelled code path formats a list (lists are joined
elementwise instead), so only the scalar cases matter. -/
def pyStr : PyVal → String
  | .str v => v
  | .int v => toString v
  | .dec lit => lit
  | .list items =>
    "[" ++ String.intercalate ", " (items.map fun it =>
      match it with
      | .str v => sqc ++ v ++ sqc
      | .obj _ => "\x7b...\x7d") ++ "]"
  | .sdict _ => "\x7b...\x7d"

/-- Python truthiness of a `PyVal`.  A decimal literal is falsy when it denotes
zero; no modelled code path truth-tests a decimal. -/
def truthy : PyVal → Bool
  | .str v => v != ""
  | .int v => v != 0
  | .dec lit => lit.data.any fun c => (c != '0') && (c != '.') && (c != '-')
  | .list items => !items.isEmpty
  | .sdict fields => !fields.isEmpty

/-- Association-list lookup (first match), the model of `d[k]` / `d.get(k)`. -/
def aget {α : Type} : List (String × α) → String → Option α
  | [], _ => none
  | (k', v') :: rest, k => if k' = k then some v' else aget rest k

/-- Association-list update with Python dict semantics: an existing key keeps
its position, a new key is appended. -/
def aset {α : Type} : List (String × α) → String → α → List (String × α)
  | [], k, v => [(k, v)]
  | (k', v') :: rest, k, v => if k' = k then (k, v) :: rest else (k', v') :: aset rest k v

/-- A Python dict with `PyVal` values. -/
abbrev PyDict := List (String × PyVal)

/-- Python `k in d and d[k]` (key present with truthy value). -/
def truthyAt (d : PyDict) (k : String) : Bool :=
  match aget d k with
  | some v => truthy v
  | none => false

/-- Python `k in d`. -/
def hasKey {α : Type} (d : List (String × α)) (k : String) : Bool := (aget d k).isSome

/-! ## Field alias maps (`_FIELD_ALIASES`, `_METADATA_FIELDS`, `_ARRAY_FIELD_TYPES`)

Alias sets are written as lists in source-literal order; iteration order over
them is supplied separately by the run's `ord` parameter (see `SetOrd`). -/

def _METADATA_FIELDS : List String := ["_model", "_tokens"]

def _FIELD_ALIASES : List (String × List (String × List String)) :=
  [ ("carousel",
      [ ("title", []),
        ("cta", ["cierre", "closing", "cta_text", "call_to_action"]),
        ("social_caption", ["copylinkedin", "copy_linkedin", "linkedin_caption", "caption", "descripcion"]),
        ("social_hashtags", ["hashtags"]) ]),
    ("meet_the_team",
      [ ("title", []),
        ("person_name", ["nombre", "name", "nombre_persona"]),
        ("role", ["cargo", "puesto", "titulo", "position"]),
        ("quote", ["cita", "frase", "testimonio"]),
        ("bio", ["biografia", "about", "descripcion"]),
        ("fun_fact", ["dato_curioso", "curiosidad"]),
        ("photo_url", ["foto", "imagen", "photo"]),
        ("social_caption", ["copylinkedin", "copy_linkedin", "caption"]),
        ("social_hashtags", ["hashtags"]) ]),
    ("meme",
      [ ("title", []),
        ("top_text", ["texto_superior", "texto_arriba", "text_top", "setup"]),
        ("bottom_text", ["texto_inferior", "texto_abajo", "text_bottom", "punchline", "remate"]),
        ("image_prompt", ["prompt_imagen", "imagen", "image"]),
        ("context", ["contexto", "explicacion"]),
        ("social_caption", ["copylinkedin", "copy_linkedin", "caption"]),
        ("social_hashtags", ["hashtags"]) ]),
    ("case_study",
      [ ("title", []),
        ("client", ["cliente", "empresa", "company"]),
        ("challenge", ["problema", "desafio", "reto", "pain_point"]),
        ("solution", ["solucion", "estrategia", "approach"]),
        ("results", ["resultados", "impacto", "impact"]),
        ("industry", ["industria", "sector", "vertical"]),
        ("testimonial", ["testimonio", "quote", "cita"]),
        ("social_caption", ["copylinkedin", "copy_linkedin", "caption"]),
        ("social_hashtags", ["hashtags"]) ]),
    ("infografia",
      [ ("title", []),
        ("social_caption", ["copylinkedin", "copy_linkedin", "caption"]),
        ("social_hashtags", ["hashtags"]) ]) ]

def _ARRAY_FIELD_TYPES : List (String × String) :=
  [("carousel", "slides"), ("infografia", "slides"), ("case_study", "key_metrics")]

/-- A run's iteration order over Python string sets: `ord` is valid when it
permutes every set it is applied to. -/
def SetOrd (ord : List String → List String) : Prop :=
  ∀ l : List String, (ord l).Perm l

/-! ## `_resolve_field` and `_normalize_visual_data` (render_asset.py) -/

/-- Embedding of `_resolve_field(data, field, aliases)`; `aliases` arrives
already ordered by the run's set-iteration order. -/
def _resolve_field (data : PyDict) (field : String) (aliases : List String) : PyVal :=
  if truthyAt data field then (aget data field).getD (.str "") else
  match aliases.find? (fun a => truthyAt data a) with
  | some a => (aget data a).getD (.str "")
  | none => .str ""

/-- The first alias (in iteration order) present in `data` with value equal to
`resolved` — the `break`ing loop that feeds `mapped_source_keys`. -/
def firstAliasEq (data : PyDict) (aliases : List String) (resolved : PyVal) : Option String :=
  aliases.find? fun a => hasKey data a && (aget data a).getD (.str "") == resolved

/-- One iteration of the loop that builds `normalized`/`mapped_source_keys`
from the alias map (the second branch of `_normalize_visual_data`). -/
def normalizeFieldStep (ord : List String → List String) (data : PyDict)
    (acc : PyDict × List String) (fa : String × List String) : PyDict × List String :=
  let resolved := _resolve_field data fa.1 (ord fa.2)
  let mapped :=
    if truthy resolved then
      let m1 := if hasKey data fa.1 then acc.2 ++ [fa.1] else acc.2
      match firstAliasEq data (ord fa.2) resolved with
      | some a => m1 ++ [a]
      | none => m1
    else acc.2
  (aset acc.1 fa.1 resolved, mapped)

/-- The full pass of the second branch of `_normalize_visual_data`. -/
def normalizeFieldsPass (ord : List String → List String) (data : PyDict)
    (aliasesMap : List (String × List String)) : PyDict × List String :=
  aliasesMap.foldl (normalizeFieldStep ord data) ([], [])

/-- One iteration of the fill-missing-fields loop (the first branch of
`_normalize_visual_data`, used when the array field already exists). -/
def fillMissingStep (ord : List String → List String) (data : PyDict)
    (normalized : PyDict) (fa : String × List String) : PyDict :=
  if !truthyAt normalized fa.1 then
    if truthy (_resolve_field data fa.1 (ord fa.2)) then
      aset normalized fa.1 (_resolve_field data fa.1 (ord fa.2))
    else normalized
  else normalized

/-- One iteration of the metadata-preserving loop. -/
def metaStep (data : PyDict) (normalized : PyDict) (meta : String) : PyDict :=
  match aget data meta with
  | some v => aset normalized meta v
  | none => normalized

/-- Headline derived from a leftover flat key:
`key.replace("_", " ").replace("-", " ").title()`. -/
def headlineOfKey (key : String) : String :=
  pyTitle (pyReplace (pyReplace key "_" " ") "-" " ")

/-- The array rows built from leftover flat string fields of `data`. -/
def arrayItems (content_type : String) (data : PyDict) (skip : List String) : List PyItem :=
  data.foldr
    (fun kv acc =>
      let key := kv.1
      if skip.contains key || strStarts key "_" || !truthy kv.2 then acc
      else match kv.2 with
        | .str v =>
          (if content_type = "case_study" then
            PyItem.obj [("metric", headlineOfKey key), ("value", v)]
          else
            PyItem.obj [("headline", headlineOfKey key), ("body", v)]) :: acc
        | _ => acc)
    []

/-- The test opening `_normalize_visual_data`: the template's array field is
already present as a non-empty list
(`isinstance(data.get(array_field), list) and data[array_field]`). -/
def hasExistingArray (content_type : String) (data : PyDict) : Bool :=
  match aget _ARRAY_FIELD_TYPES content_type with
  | some af =>
    match aget data af with
    | some (.list items) => !items.isEmpty
    | _ => false
  | none => false

/-- Embedding of `_normalize_visual_data(content_type, data)`, parameterized by
the run's set-iteration order `ord`.  The metadata loop iterates
`_METADATA_FIELDS` in source-literal order (a fixed two-element set). -/
def _normalize_visual_data (ord : List String → List String)
    (content_type : String) (data : PyDict) : PyDict :=
  match aget _FIELD_ALIASES content_type with
  | none => data
  | some aliasesMap =>
    let array_field := aget _ARRAY_FIELD_TYPES content_type
    if hasExistingArray content_type data then
      -- array field already exists: copy data, only fill missing/falsy fields
      aliasesMap.foldl (fillMissingStep ord data) data
    else
      let pass := normalizeFieldsPass ord data aliasesMap
      let withArray :=
        match array_field with
        | some af =>
          let skip := aliasesMap.map Prod.fst ++ _METADATA_FIELDS ++
            aliasesMap.foldr (fun fa acc => fa.2 ++ acc) [] ++ pass.2
          aset pass.1 af (.list (arrayItems content_type data skip))
        | none => pass.1
      _METADATA_FIELDS.foldl (metaStep data) withArray

/-! ## Python exceptions, the XML tree model, and the effect environment -/

/-- The exception kinds the rendering code raises or catches. -/
inductive PyErr where
  | valueError (msg : String)
  | permissionError (msg : String)
deriving Repr, DecidableEq

mutual
/-- An `xml.etree.ElementTree` element: tag, attributes, `.text`, `.tail`,
children.  Namespaced tags are stored expanded (`{http://...}text`), as
ElementTree does after parsing. -/
inductive Xml where
  | elem (tag : String) (attrs : List (String × String)) (text : Option String)
      (tail : Option String) (children : XmlList)
deriving Repr
/-- A list of sibling XML elements (mutual with `Xml` so that structural
recursion and induction stay available). -/
inductive XmlList where
  | nil
  | cons (x : Xml) (xs : XmlList)
deriving Repr
end

/-- The external world of the rendering code: filesystem, network, XML
parse/serialize, and the two Jinja2 entry points.  All are pure function
parameters; a run of the program fixes one `PyEnv`. -/
structure PyEnv where
  pathExists : String → Bool
  readB64 : String → String
  guessMime : String → Option String
  readText : String → String
  resolvePath : String → String
  httpGet : String → String
  allowedDirs : List String
  parseXml : String → Xml
  xmlToStr : Xml → String
  jinjaFile : String → PyDict → String → List (String × String) → PyDict → Except String String
  jinjaStr : String → PyDict → String → List (String × String) → PyDict → Except String String

/-! ## `TEMPLATE_MAP`, asset tables and asset selection (render_asset.py) -/

def VISUAL_TYPES : List String := ["carousel", "meet_the_team", "meme", "case_study", "infografia"]

/-- One entry of `TEMPLATE_MAP`. -/
structure TplConfig where
  file : String
  format : String
  width : Int
  height : Int
deriving Repr, DecidableEq

def TEMPLATE_MAP : List (String × TplConfig) :=
  [ ("carousel", ⟨"carousel.html", "pdf", 1080, 1080⟩),
    ("meet_the_team", ⟨"meet_the_team.html", "png", 1080, 1350⟩),
    ("meme", ⟨"meme.html", "png", 1080, 1350⟩),
    ("case_study", ⟨"caso_exito.html", "png", 1080, 1350⟩),
    ("infografia", ⟨"infografia.html", "png", 1080, 1350⟩) ]

/-- A template asset row as the services hand it to the engine; the services
build these dicts with exactly the keys `asset_type`, `file_url` (and a `name`
the engine never reads). -/
structure Asset where
  asset_type : String
  file_url : String
deriving Repr, DecidableEq

def _DESIGN_ASSET_TYPES : List String :=
  ["design_background", "design_cover", "design_slide", "design_cta"]

def _SVG_ASSET_TYPES : List String :=
  ["design_svg", "design_svg_cover", "design_svg_slide", "design_svg_cta"]

/-- Embedding of `_get_design_assets(template_assets, content_type)`. -/
def _get_design_assets (template_assets : Option (List Asset)) (content_type : String) :
    List (String × String) :=
  match template_assets with
  | none => []
  | some tas =>
    if tas.isEmpty then [] else
    let designs := tas.foldl
      (fun d a =>
        if _DESIGN_ASSET_TYPES.contains a.asset_type && a.file_url != "" then
          aset d a.asset_type a.file_url
        else d)
      []
    if content_type != "carousel" && hasKey designs "design_background" then designs
    else if content_type == "carousel" && hasKey designs "design_slide" then designs
    else []

/-- Embedding of `_get_svg_assets(template_assets, content_type)`. -/
def _get_svg_assets (template_assets : Option (List Asset)) (content_type : String) :
    List (String × String) :=
  match template_assets with
  | none => []
  | some tas =>
    if tas.isEmpty then [] else
    let svgs := tas.foldl
      (fun d a =>
        if _SVG_ASSET_TYPES.contains a.asset_type && a.file_url != "" then
          aset d a.asset_type a.file_url
        else d)
      []
    if content_type != "carousel" && hasKey svgs "design_svg" then svgs
    else if content_type == "carousel" && hasKey svgs "design_svg_slide" then svgs
    else []

/-- Embedding of `_resolve_image_url(url)`: `file://` URLs of existing files
become base64 data URIs, everything else passes through. -/
def _resolve_image_url (env : PyEnv) (url : String) : String :=
  if url = "" then url
  else if strStarts url "file://" then
    let file_path := pyReplace url "file://" ""
    if env.pathExists file_path then
      let mime := (env.guessMime file_path).getD "image/png"
      "data:" ++ mime ++ ";base64," ++ env.readB64 file_path
    else url
  else url

/-! ## HTML escaping (`html.escape`, as `_zone_html` uses it) -/

/-- Embedding of `html.escape(s)` with its default `quote=True`: the five
sequential `str.replace` passes of the stdlib implementation. -/
def _html_escape (s : String) : String :=
  pyReplace (pyReplace (pyReplace (pyReplace (pyReplace s "&" "&amp;")
    "<" "&lt;") ">" "&gt;") "\"" "&quot;") sqc "&#x27;"

/-! ## `_zone_html` and `_render_overlay_html` (render_asset.py) -/

/-- A text-zone configuration dict (`structure_zones` values). -/
abbrev Zone := List (String × PyVal)

/-- A structure-zones dict: canonical field name to zone configuration. -/
abbrev Zones := List (String × Zone)

/-- Look up a zone key with a default and format the value as Python's
f-string would (`str(value)`). -/
def zoneStr (zone : Zone) (k : String) (dflt : PyVal) : String :=
  pyStr ((aget zone k).getD dflt)

/-- Embedding of the nested `_zone_html(text, zone)`: an optional cover
rectangle followed by the positioned text div. -/
def _zone_html (text : String) (zone : Zone) : String :=
  if text = "" || zone.isEmpty then "" else
  let x := (aget zone "x").getD (.int 0)
  let y := (aget zone "y").getD (.int 0)
  let w := (aget zone "width").getD (.int 400)
  let h := (aget zone "height").getD (.int 100)
  let font_size := zoneStr zone "font_size" (.int 20)
  let font_weight := zoneStr zone "font_weight" (.int 400)
  let font_family := zoneStr zone "font_family" (.str "Inter, sans-serif")
  let color := zoneStr zone "color" (.str "#000000")
  let align := zoneStr zone "align" (.str "left")
  let line_height := zoneStr zone "line_height" (.dec "1.4")
  let text_transform := zoneStr zone "text_transform" (.str "none")
  let bg_fill := (aget zone "bg_fill").getD (.str "")
  let padding := zoneStr zone "padding" (.int 0)
  let bg_x := zoneStr zone "bg_x" x
  let bg_y := zoneStr zone "bg_y" y
  let bg_w := zoneStr zone "bg_width" w
  let bg_h := zoneStr zone "bg_height" h
  let textDiv :=
    "<div style=\"position:absolute;top:" ++ pyStr y ++ "px;left:" ++ pyStr x ++
    "px;width:" ++ pyStr w ++ "px;height:" ++ pyStr h ++
    "px;font-size:" ++ font_size ++ "px;font-weight:" ++ font_weight ++
    ";font-family:" ++ sqc ++ font_family ++ sqc ++ ",sans-serif;color:" ++ color ++
    ";text-align:" ++ align ++ ";line-height:" ++ line_height ++
    ";text-transform:" ++ text_transform ++ ";padding:" ++ padding ++
    "px;overflow:hidden;z-index:2;display:flex;align-items:flex-start;\">" ++
    "<span>" ++ _html_escape text ++ "</span></div>"
  if truthy bg_fill && bg_fill != .str "transparent" then
    "<div style=\"position:absolute;top:" ++ bg_y ++ "px;left:" ++ bg_x ++
    "px;width:" ++ bg_w ++ "px;height:" ++ bg_h ++ "px;background:" ++ pyStr bg_fill ++
    ";z-index:1;\"></div>" ++ "\n" ++ textDiv
  else textDiv

def font_link : String :=
  "<link href=\"https://fonts.googleapis.com/css2?family=Inter:wght@300;400;500;600;700;800;900" ++
  "&family=Playfair+Display:wght@700;800;900&display=swap\" rel=\"stylesheet\">"

/-- `slide.get(key)` on an array row.  On a bare-string row Python would raise
`AttributeError` (strings have no `.get`); no repository flow builds such a
slides list, and the model returns `none` there. -/
def slideGet : PyItem → String → Option String
  | .obj fields, k => aget fields k
  | .str _, _ => none

/-- Truthiness of `slide.get(k)` (None and "" falsy). -/
def slideGetTruthy (it : PyItem) (k : String) : Bool :=
  match slideGet it k with
  | some s => s != ""
  | none => false

/-- The `slides` list of the content dict (`content_data.get("slides", [])`).
A truthy non-list value would make Python iterate it elementwise; no modelled
flow produces one, and the model returns `[]` there. -/
def slidesOf (content_data : PyDict) : List PyItem :=
  match aget content_data "slides" with
  | some (.list items) => items
  | _ => []

/-- Embedding of `_render_overlay_html(content_type, content_data,
design_assets, zones, config, brand)`. -/
def _render_overlay_html (env : PyEnv) (content_type : String) (content_data : PyDict)
    (design_assets : List (String × String)) (zones : Zones) (config : TplConfig)
    (_brand : PyDict) : String :=
  let width := toString config.width
  let height := toString config.height
  if content_type = "carousel" then
    let slide_url := (aget design_assets "design_slide").getD ""
    let cover_bg := _resolve_image_url env ((aget design_assets "design_cover").getD slide_url)
    let slide_bg := _resolve_image_url env slide_url
    let cta_bg := _resolve_image_url env ((aget design_assets "design_cta").getD slide_url)
    let slides := slidesOf content_data
    let cover_zones :=
      (["title", "social_caption"].map fun field_name =>
        if hasKey zones field_name && truthyAt content_data field_name then
          _zone_html (pyStr ((aget content_data field_name).getD (.str "")))
            ((aget zones field_name).getD [])
        else "").foldl (· ++ ·) ""
    let coverPage :=
      "<div class=\"page\" style=\"background-image:url(" ++ sqc ++ cover_bg ++ sqc ++
      ");\">" ++ cover_zones ++ "</div>"
    let slide_headline_zone := (aget zones "slide_headline").getD []
    let slide_body_zone := (aget zones "slide_body").getD []
    let slidePages := slides.map fun slide =>
      let hz :=
        if !slide_headline_zone.isEmpty && slideGetTruthy slide "headline" then
          _zone_html ((slideGet slide "headline").getD "") slide_headline_zone
        else ""
      let bz :=
        if !slide_body_zone.isEmpty && slideGetTruthy slide "body" then
          _zone_html ((slideGet slide "body").getD "") slide_body_zone
        else ""
      "<div class=\"page\" style=\"background-image:url(" ++ sqc ++ slide_bg ++ sqc ++
      ");\">" ++ (hz ++ bz) ++ "</div>"
    let cta_zones :=
      if hasKey zones "cta" && truthyAt content_data "cta" then
        _zone_html (pyStr ((aget content_data "cta").getD (.str ""))) ((aget zones "cta").getD [])
      else ""
    let ctaPage :=
      "<div class=\"page\" style=\"background-image:url(" ++ sqc ++ cta_bg ++ sqc ++
      ");\">" ++ cta_zones ++ "</div>"
    let pages_html := String.intercalate "\n" ([coverPage] ++ slidePages ++ [ctaPage])
    "<!DOCTYPE html>\n<html><head><meta charset=\"UTF-8\">" ++ font_link ++ "\n<style>\n" ++
    "*\x7bmargin:0;padding:0;box-sizing:border-box;\x7d\n" ++
    "body\x7bwidth:" ++ width ++ "px;font-family:" ++ sqc ++ "Inter" ++ sqc ++ ",sans-serif;\x7d\n" ++
    ".page\x7bwidth:" ++ width ++ "px;height:" ++ height ++ "px;position:relative;overflow:hidden;\n" ++
    "background-size:cover;background-position:center;background-repeat:no-repeat;\n" ++
    "page-break-after:always;\x7d\n" ++
    ".page:last-child\x7bpage-break-after:auto;\x7d\n" ++
    "</style></head>\n<body>" ++ pages_html ++ "</body></html>"
  else
    let bg_url := _resolve_image_url env ((aget design_assets "design_background").getD "")
    let zone_html_parts := zones.foldr
      (fun fz acc =>
        let text_value := (aget content_data fz.1).getD (.str "")
        match text_value with
        | .str s => if s != "" then _zone_html s fz.2 :: acc else acc
        | .list items =>
          (items.filterMap fun item =>
            match item with
            | .obj fields =>
              some (_zone_html (String.intercalate " — " (fields.map Prod.snd)) fz.2)
            | .str _ => none) ++ acc
        | _ => acc)
      []
    let zones_html := String.intercalate "\n" zone_html_parts
    "<!DOCTYPE html>\n<html><head><meta charset=\"UTF-8\">" ++ font_link ++ "\n<style>\n" ++
    "*\x7bmargin:0;padding:0;box-sizing:border-box;\x7d\n" ++
    "body\x7bwidth:" ++ width ++ "px;height:" ++ height ++ "px;font-family:" ++ sqc ++ "Inter" ++ sqc ++ ",sans-serif;\n" ++
    "position:relative;overflow:hidden;\n" ++
    "background-image:url(" ++ sqc ++ bg_url ++ sqc ++ ");background-size:cover;background-position:center;\n" ++
    "background-repeat:no-repeat;\x7d\n" ++
    "</style></head>\n<body>" ++ zones_html ++ "</body></html>"

/-! ## `_replace_svg_text` and helpers (render_asset.py)

The Python function parses the SVG, collects the matching `<text>` elements
with `_find_text_elements` (a preorder walk), and then mutates each match in
document order.  The embedding works on the parsed tree: it collects the
preorder paths of the matching elements and folds the per-element mutation
over them in the same order.  Parsing and serialization (`defusedxml`
`fromstring` / `ET.tostring`) are external and live in `PyEnv`. -/

/-- Python `s.endswith(suffix)`. -/
def strEnds (s suffix : String) : Bool := suffix.data.reverse.isPrefixOf s.data.reverse

/-- The expanded namespaced tspan tag ElementTree searches for first. -/
def nsTspanTag : String := "\x7bhttp://www.w3.org/2000/svg\x7dtspan"

/-- The match test of `_find_text_elements`: the (already lowercased) field
name is contained in the lowercased `id` attribute, or equals the `data-field`
attribute, and the element is a `<text>` element (namespaced or not). -/
def matchedText (field : String) (tag : String) (attrs : List (String × String)) : Bool :=
  let elem_id := (aget attrs "id").getD ""
  let data_field := (aget attrs "data-field").getD ""
  (containsSub field.data (strLower elem_id).data || field == data_field) &&
    (strEnds tag "\x7dtext" || tag == "text")

mutual
/-- Number of elements with the given tag in an element's subtree, self
included — the length of `list(elem.iter(tag))`. -/
def countTag (tag : String) : Xml → Nat
  | .elem t _ _ _ cs => (if t = tag then 1 else 0) + countTagList tag cs
def countTagList (tag : String) : XmlList → Nat
  | .nil => 0
  | .cons x xs => countTag tag x + countTagList tag xs
end

mutual
/-- The tspan-filling loop: assigns `lines[i]` (or `""` past the end) to each
element with the given tag, in document (preorder) order, threading the
running index `i`. -/
def fillTspans (tag : String) (lines : List String) (i : Nat) : Xml → Xml × Nat
  | .elem t a s tl cs =>
    if t = tag then
      let r := fillTspansList tag lines (i + 1) cs
      (.elem t a (some (lines.getD i "")) tl r.1, r.2)
    else
      let r := fillTspansList tag lines i cs
      (.elem t a s tl r.1, r.2)
def fillTspansList (tag : String) (lines : List String) (i : Nat) : XmlList → XmlList × Nat
  | .nil => (.nil, i)
  | .cons x xs =>
    let r := fillTspans tag lines i x
    let rs := fillTspansList tag lines r.2 xs
    (.cons r.1 rs.1, rs.2)
end

/-- The line split applied to a replacement text
(`new_text.split("\n") if "\n" in new_text else [new_text]`). -/
def linesOf (new_text : String) : List String :=
  if strIn "\n" new_text then pySplitNl new_text else [new_text]

/-- The per-match mutation: fill namespaced tspans if any, else plain tspans
if any, else set the element's own text. -/
def mutateTextElem (new_text : String) (e : Xml) : Xml :=
  if countTag nsTspanTag e ≠ 0 then (fillTspans nsTspanTag (linesOf new_text) 0 e).1
  else if countTag "tspan" e ≠ 0 then (fillTspans "tspan" (linesOf new_text) 0 e).1
  else match e with
    | .elem t a _ tl cs => .elem t a (some new_text) tl cs

mutual
/-- Preorder paths (child-index sequences, relative to `pre`) of the elements
matching a field — the order `_find_text_elements` returns matches in. -/
def collectMatched (field : String) (pre : List Nat) : Xml → List (List Nat)
  | .elem t a _ _ cs =>
    (if matchedText field t a then [pre] else []) ++ collectMatchedList field pre 0 cs
def collectMatchedList (field : String) (pre : List Nat) (i : Nat) : XmlList → List (List Nat)
  | .nil => []
  | .cons x xs => collectMatched field (pre ++ [i]) x ++ collectMatchedList field pre (i + 1) xs
end

mutual
/-- Apply a subtree transformation at a preorder path. -/
def applyAtPath (p : List Nat) (f : Xml → Xml) (x : Xml) : Xml :=
  match p, x with
  | [], _ => f x
  | i :: rest, .elem t a s tl cs => .elem t a s tl (applyAtPathList i rest f cs)
def applyAtPathList (i : Nat) (rest : List Nat) (f : Xml → Xml) : XmlList → XmlList
  | .nil => .nil
  | .cons x xs =>
    match i with
    | 0 => .cons (applyAtPath rest f x) xs
    | j + 1 => .cons x (applyAtPathList j rest f xs)
end

/-- Process one `(field_name, new_text)` entry: find the matches of the
lowercased field name and mutate them in document order. -/
def replaceOneField (field new_text : String) (root : Xml) : Xml :=
  (collectMatched (strLower field) [] root).foldl
    (fun acc p => applyAtPath p (mutateTextElem new_text) acc) root

/-- Embedding of `_replace_svg_text(svg_content, replacements)` at tree level:
entries with falsy text are skipped, the rest are processed in dict order. -/
def _replace_svg_text (root : Xml) (replacements : List (String × String)) : Xml :=
  replacements.foldl
    (fun acc fv => if fv.2 = "" then acc else replaceOneField fv.1 fv.2 acc) root

/-! ## `_load_svg_content` and `_validate_local_path` (render_asset.py) -/

/-- Embedding of `_validate_local_path`: `true` when the resolved path string
starts with the string of one of the allowed directories (`_ALLOWED_DIRS`,
supplied through the environment since they derive from `Config`). -/
def _validate_local_path (allowed : List String) (path : String) : Bool :=
  allowed.any fun a => strStarts path a

/-- Embedding of `_load_svg_content(url)`: `file://` URLs and bare paths are
resolved and validated before reading; anything starting with `"http"` is
fetched remotely. -/
def _load_svg_content (env : PyEnv) (url : String) : Except PyErr String :=
  if strStarts url "file://" then
    let path := env.resolvePath (pyReplace url "file://" "")
    if _validate_local_path env.allowedDirs path then .ok (env.readText path)
    else .error (.permissionError ("Access denied: " ++ path ++ " is outside allowed directories"))
  else if strStarts url "http" then
    .ok (env.httpGet url)
  else
    let path := env.resolvePath url
    if _validate_local_path env.allowedDirs path then .ok (env.readText path)
    else .error (.permissionError ("Access denied: " ++ path ++ " is outside allowed directories"))

/-! ## `_render_svg_template` (render_asset.py) -/

/-- A slide row as a dict, for `_build_replacements(slide)`.  On a bare-string
row Python's `.items()` would raise; no repository flow builds one. -/
def liftItem : PyItem → PyDict
  | .obj fields => fields.map fun kv => (kv.1, .str kv.2)
  | .str _ => []

/-- Embedding of the nested `_build_replacements(data, extra)`: string-valued
content fields plus the two brand fields, then `extra` merged on top. -/
def _build_replacements (data : PyDict) (brand : PyDict)
    (extra : Option (List (String × String))) : List (String × String) :=
  let base := data.foldl
    (fun r kv => match kv.2 with | .str v => aset r kv.1 v | _ => r) []
  let r1 := aset base "brand_name" (pyStr ((aget brand "name").getD (.str "")))
  let r2 := aset r1 "brand_website" (pyStr ((aget brand "website").getD (.str "")))
  match extra with
  | some ex => ex.foldl (fun r kv => aset r kv.1 kv.2) r2
  | none => r2

/-- Replace text in one loaded SVG string and wrap it in a carousel page div. -/
def svgPage (env : PyEnv) (svg : String) (reps : List (String × String)) : String :=
  "<div class=\"page\">" ++ env.xmlToStr (_replace_svg_text (env.parseXml svg) reps) ++ "</div>"

/-- Embedding of `_render_svg_template(content_type, content_data, svg_assets,
config, brand)`. -/
def _render_svg_template (env : PyEnv) (content_type : String) (content_data : PyDict)
    (svg_assets : List (String × String)) (config : TplConfig) (brand : PyDict) :
    Except PyErr String := do
  let width := toString config.width
  let height := toString config.height
  if content_type = "carousel" then
    let slides := slidesOf content_data
    let slide_url := (aget svg_assets "design_svg_slide").getD ""
    let cover_url := (aget svg_assets "design_svg_cover").getD slide_url
    let cta_url := (aget svg_assets "design_svg_cta").getD slide_url
    let coverPages ←
      if cover_url ≠ "" then do
        let svg ← _load_svg_content env cover_url
        pure [svgPage env svg (_build_replacements content_data brand none)]
      else pure []
    let slidePages ←
      if slide_url ≠ "" then do
        let slide_svg ← _load_svg_content env slide_url
        pure (slides.map fun slide =>
          svgPage env slide_svg (_build_replacements (liftItem slide) brand none))
      else pure []
    let ctaPages ←
      if cta_url ≠ "" then do
        let svg ← _load_svg_content env cta_url
        pure [svgPage env svg (_build_replacements content_data brand none)]
      else pure []
    let all_pages := String.intercalate "\n" (coverPages ++ slidePages ++ ctaPages)
    pure ("<!DOCTYPE html>\n<html><head><meta charset=\"UTF-8\">\n<style>\n" ++
      "*\x7bmargin:0;padding:0;box-sizing:border-box;\x7d\n" ++
      "body\x7bwidth:" ++ width ++ "px;\x7d\n" ++
      ".page\x7bwidth:" ++ width ++ "px;height:" ++ height ++ "px;overflow:hidden;page-break-after:always;\x7d\n" ++
      ".page:last-child\x7bpage-break-after:auto;\x7d\n" ++
      ".page svg\x7bwidth:100%;height:100%;\x7d\n" ++
      "</style></head>\n<body>" ++ all_pages ++ "</body></html>")
  else
    let svg_url := (aget svg_assets "design_svg").getD ""
    let svg ← _load_svg_content env svg_url
    let modified_svg := env.xmlToStr
      (_replace_svg_text (env.parseXml svg) (_build_replacements content_data brand none))
    pure ("<!DOCTYPE html>\n<html><head><meta charset=\"UTF-8\">\n<style>\n" ++
      "*\x7bmargin:0;padding:0;box-sizing:border-box;\x7d\n" ++
      "body\x7bwidth:" ++ width ++ "px;height:" ++ height ++ "px;overflow:hidden;\x7d\n" ++
      "svg\x7bwidth:100%;height:100%;\x7d\n" ++
      "</style></head>\n<body>" ++ modified_svg ++ "</body></html>")

/-! ## `generate_html` (render_asset.py) -/

/-- Python `str(list_of_strings)` as it appears in error messages. -/
def pyStrList (l : List String) : String :=
  "[" ++ String.intercalate ", " (l.map fun s => sqc ++ s ++ sqc) ++ "]"

/-- Truthiness of the `structure_zones` argument (`None` or empty dict falsy). -/
def zonesTruthy : Option Zones → Bool
  | none => false
  | some z => !z.isEmpty

/-- The alias-normalization step of `generate_html`
(`if content_type in _FIELD_ALIASES: content_data = _normalize_visual_data(...)`). -/
def normalizedFor (ord : List String → List String) (content_type : String)
    (content_data : PyDict) : PyDict :=
  if hasKey _FIELD_ALIASES content_type then
    _normalize_visual_data ord content_type content_data
  else content_data

/-- The array-field validation of `generate_html`
(`if array_field and not content_data.get(array_field)`). -/
def arrayFieldMissing (content_type : String) (data : PyDict) : Bool :=
  match aget _ARRAY_FIELD_TYPES content_type with
  | some af => !truthyAt data af
  | none => false

/-- The `assets_dict` built by `generate_html`, keyed by asset type. -/
def assetsDictFor (template_assets : Option (List Asset)) : List (String × String) :=
  match template_assets with
  | some tas => tas.foldl (fun d a => aset d a.asset_type a.file_url) []
  | none => []

/-- The brand dict built by `generate_html`: defaults updated with the truthy
entries of the supplied brand context. -/
def brandFor (brand_context : Option PyDict) : PyDict :=
  match brand_context with
  | some bc => bc.foldl (fun b kv => if truthy kv.2 then aset b kv.1 kv.2 else b)
      [("name", .str ""), ("logo_url", .str ""), ("website", .str ""),
       ("accent_color", .str "#0066FF")]
  | none =>
      [("name", .str ""), ("logo_url", .str ""), ("website", .str ""),
       ("accent_color", .str "#0066FF")]

/-- The `try/except` around `template.render`: a Jinja2 failure becomes a
`ValueError` naming the content type and the data keys. -/
def wrapJinjaErr (content_type : String) (data : PyDict) :
    Except String String → Except PyErr String
  | .ok s => .ok s
  | .error e =>
    .error (.valueError ("Jinja2 template rendering failed for " ++ sqc ++
      content_type ++ sqc ++ ": " ++ e ++ ". content_data keys: " ++
      pyStrList (data.map Prod.fst)))

/-- Embedding of `generate_html(content_type, content_data,
visual_layout_override, visual_css_override, template_assets, brand_context,
structure_zones)`.  The Jinja2 environment construction and `template.render`
are collapsed into the `PyEnv` render functions, whose failures the code wraps
into `ValueError` as the `try` block does. -/
def generate_html (env : PyEnv) (ord : List String → List String)
    (content_type : String) (content_data : PyDict)
    (visual_layout_override : Option String) (visual_css_override : Option String)
    (template_assets : Option (List Asset)) (brand_context : Option PyDict)
    (structure_zones : Option Zones) : Except PyErr String :=
  if !hasKey TEMPLATE_MAP content_type then
    .error (.valueError ("Unknown visual content type: " ++ content_type ++
      ". Supported: " ++ pyStrList (TEMPLATE_MAP.map Prod.fst)))
  else if content_data.isEmpty then
    .error (.valueError "content_data is empty — cannot render without content")
  else
    let data := normalizedFor ord content_type content_data
    if arrayFieldMissing content_type data then
      .error (.valueError (sqc ++ content_type ++ sqc ++ " has no renderable " ++ sqc ++
        ((aget _ARRAY_FIELD_TYPES content_type).getD "") ++ sqc ++ ". Got keys: " ++
        pyStrList (data.map Prod.fst)))
    else
      let config := (aget TEMPLATE_MAP content_type).getD ⟨"", "", 0, 0⟩
      let brand := brandFor brand_context
      if !(_get_svg_assets template_assets content_type).isEmpty then
        _render_svg_template env content_type data
          (_get_svg_assets template_assets content_type) config brand
      else if !(_get_design_assets template_assets content_type).isEmpty &&
          zonesTruthy structure_zones then
        .ok (_render_overlay_html env content_type data
          (_get_design_assets template_assets content_type)
          (structure_zones.getD []) config brand)
      else if optStrTruthy visual_layout_override then
        wrapJinjaErr content_type data
          (env.jinjaStr (visual_layout_override.getD "") data (visual_css_override.getD "")
            (assetsDictFor template_assets) brand)
      else
        wrapJinjaErr content_type data
          (env.jinjaFile config.file data (visual_css_override.getD "")
            (assetsDictFor template_assets) brand)

/-! ## render_service.py: data model and `_upload_and_save`

`render(...)` and `render_from_html(...)` end in a Playwright browser session;
their outcomes enter the service embeddings as explicit `Except` parameters,
as do the external Figma/Canva service calls. -/

/-- The `ContentItem` ORM row, restricted to the fields the render service
reads or writes. -/
structure ContentItem where
  id : String
  org_id : String
  status : String
  rendered_html : String
  content_data : Option PyDict
deriving Repr, DecidableEq

/-- One entry of `template.structure`: a dict with a `name` key and an
optional `zone` dict. -/
structure FieldDef where
  name : String
  zone : Option Zone
deriving Repr, DecidableEq

/-- The `ContentTemplate` ORM row, restricted to the fields the render service
reads (`struct` stands for the Python attribute `structure`, a Lean keyword). -/
structure ContentTemplate where
  id : String
  content_type : String
  design_source : Option PyDict
  visual_layout : Option String
  visual_css : Option String
  struct : Option (List FieldDef)
deriving Repr, DecidableEq

/-- The dict returned by `render(...)` / `render_from_html(...)` /
`render_figma_content` / `render_canva_content` / `export_canva_design`
(`render_source` is absent until the service sets it). -/
structure RenderResult where
  file_path : String
  file_name : String
  rendered_html : String
  format : String
  render_source : Option String
deriving Repr, DecidableEq

/-- `result["render_source"] = s`. -/
def setSource (r : RenderResult) (s : String) : RenderResult :=
  ⟨r.file_path, r.file_name, r.rendered_html, r.format, some s⟩

/-- The dict `_upload_and_save` returns to the API layer. -/
structure RenderReturn where
  file_name : String
  asset_url : String
  rendered_html : String
  format : String
  render_source : String
deriving Repr, DecidableEq

/-- The `structure_zones` extraction the service performs before calling the
engine: every structure entry with a `zone` key contributes
`name ↦ zone`. -/
def zonesFromStructure (structFields : Option (List FieldDef)) : Zones :=
  (structFields.getD []).foldl
    (fun z fd => match fd.zone with
      | some zn => aset z fd.name zn
      | none => z) []

/-- Embedding of `_upload_and_save(db, item, result)`: uploads the rendered
file (the storage call is the `upload` parameter), overwrites the item's
`rendered_html`, promotes a `draft` status to `review`, and builds the return
dict.  The modelled `result` dicts always carry `rendered_html`, so
`result.get("rendered_html", "")` is `result.rendered_html`. -/
def _upload_and_save (upload : String → String → String) (item : ContentItem)
    (result : RenderResult) : ContentItem × RenderReturn :=
  let mime := if result.format = "pdf" then "application/pdf" else "image/png"
  let asset_url := upload result.file_name mime
  let item' : ContentItem :=
    ⟨item.id, item.org_id, (if item.status = "draft" then "review" else item.status),
      result.rendered_html, item.content_data⟩
  (item', ⟨result.file_name, asset_url, result.rendered_html, result.format,
    result.render_source.getD "builtin"⟩)

/-! ## `render_content_item` (render_service.py) -/

/-- The built-in tail of `render_content_item`: run the engine (`render(...)`,
whose outcome is the `builtinRender` parameter), tag the result as `builtin`,
and persist it. -/
def render_builtin_path (upload : String → String → String)
    (builtinRender : Except PyErr RenderResult) (item : ContentItem) :
    Except PyErr (ContentItem × RenderReturn) :=
  match builtinRender with
  | .error e => .error e
  | .ok r => .ok (_upload_and_save upload item (setSource r "builtin"))

/-- Embedding of `render_content_item(db, item, template)`.  `extRender` is
the outcome of the provider call (`render_figma_content` /
`render_canva_content`): an exception, `None`, or a result dict; it is only
consulted when the template's design source names one of the two known
providers, exactly as the code only calls those providers. -/
def render_content_item (upload : String → String → String)
    (extRender : Except String (Option RenderResult))
    (builtinRender : Except PyErr RenderResult)
    (item : ContentItem) (template : ContentTemplate) :
    Except PyErr (ContentItem × RenderReturn) :=
  if !VISUAL_TYPES.contains template.content_type then
    .error (.valueError ("Template type " ++ sqc ++ template.content_type ++ sqc ++
      " does not support visual rendering. Supported: " ++
      String.intercalate ", " VISUAL_TYPES))
  else
    match template.design_source with
    | some ds =>
      if !ds.isEmpty then
        match (if aget ds "provider" == some (.str "figma") ||
                  aget ds "provider" == some (.str "canva") then
                 (match extRender with | .ok o => o | .error _ => none)
               else none) with
        | some r =>
          .ok (_upload_and_save upload item (setSource r
            (match aget ds "provider" with | some (.str p) => p | _ => "")))
        | none => render_builtin_path upload builtinRender item
      else render_builtin_path upload builtinRender item
    | none => render_builtin_path upload builtinRender item

/-! ## `render_from_preview` (render_service.py) -/

/-- Embedding of `render_from_preview(db, item, template, html,
canva_design_id)`.  Call-outcome parameters: `exportCanva` for
`export_canva_design`, `renderFigma` for `render_figma_content`,
`builtinHtml` for the `generate_html` call made when no html was provided,
and `playwrightRender` for `render_from_html`. -/
def render_from_preview (upload : String → String → String)
    (exportCanva : Except String (Option RenderResult))
    (renderFigma : Except String (Option RenderResult))
    (builtinHtml : Except PyErr String)
    (playwrightRender : String → Except PyErr RenderResult)
    (item : ContentItem) (template : ContentTemplate)
    (html : Option String) (canva_design_id : Option String) :
    Except PyErr (ContentItem × RenderReturn) :=
  let figmaBranch : Except PyErr (ContentItem × RenderReturn) :=
    let figmaSource :=
      match template.design_source with
      | some ds => !ds.isEmpty && (aget ds "provider" == some (.str "figma"))
      | none => false
    let builtinBranch : Except PyErr (ContentItem × RenderReturn) :=
      let htmlE : Except PyErr String :=
        if optStrTruthy html then .ok (html.getD "") else builtinHtml
      match htmlE with
      | .error e => .error e
      | .ok h =>
        match playwrightRender h with
        | .error e => .error e
        | .ok r => .ok (_upload_and_save upload item (setSource r "builtin"))
    if figmaSource && !optStrTruthy html then
      match renderFigma with
      | .error e => .error (.valueError ("Figma render failed: " ++ e))
      | .ok (some r) => .ok (_upload_and_save upload item (setSource r "figma"))
      | .ok none => builtinBranch
    else builtinBranch
  if optStrTruthy canva_design_id then
    match exportCanva with
    | .error e => .error (.valueError ("Canva export failed: " ++ e))
    | .ok (some r) => .ok (_upload_and_save upload item (setSource r "canva"))
    | .ok none => figmaBranch
  else figmaBranch

/-! ## `render_canva_content` (canva_render_service.py)

The Canva API calls are abstracted to the values the code extracts from their
responses: `tokenCall` is `get_valid_token` (the config upsert side effect is
dropped), `autofillJobId` is `create_autofill` followed by the
`result["job"]["id"]` extraction (`""` when the response lacks it),
`autofillDesignId` is `wait_for_autofill` followed by the nested design-id
extraction, `exportJobId` and `exportUrls` likewise for `create_export` /
`wait_for_export`, and the downloaded bytes and filesystem write are dropped
(only the output path matters to the result dict). -/

/-- Embedding of `render_canva_content(db, org_id, design_source,
content_data, content_id, content_type, brand_context)`; returns `none`
wherever the code logs and falls back. -/
def render_canva_content (ord : List String → List String)
    (config : Option PyDict)
    (tokenCall : Except String String)
    (autofillJobId : Except String String)
    (autofillDesignId : Except String String)
    (exportJobId : Except String String)
    (exportUrls : Except String (List String))
    (rendersDir : String) (uuid4 : String)
    (design_source : PyDict) (content_data : PyDict) (content_id : String)
    (content_type : String) (brand_context : PyDict) : Option RenderResult :=
  match config with
  | none => none
  | some _ =>
    let template_id := (aget design_source "template_id").getD (.str "")
    let field_map :=
      match aget design_source "field_map" with
      | some (.sdict m) => m
      | _ => []
    if !truthy template_id then none
    else
      match tokenCall with
      | .error _ => none
      | .ok _ =>
        let normalized := _normalize_visual_data ord content_type content_data
        let autofill_data := field_map.foldl
          (fun ad fc =>
            match (aget normalized fc.1).getD (.str "") with
            | .str v => if v != "" then aset ad fc.2 v else ad
            | .list items =>
              let parts := items.map fun it =>
                match it with
                | .obj fields =>
                  (aget fields "headline").getD "" ++ "\n" ++ (aget fields "body").getD ""
                | .str s => s
              if !parts.isEmpty then aset ad fc.2 (String.intercalate "\n\n" parts) else ad
            | _ => ad)
          []
        let ad2 :=
          if hasKey field_map "brand_name" && truthyAt brand_context "name" then
            aset autofill_data ((aget field_map "brand_name").getD "")
              (pyStr ((aget brand_context "name").getD (.str "")))
          else autofill_data
        let ad3 :=
          if hasKey field_map "brand_website" && truthyAt brand_context "website" then
            aset ad2 ((aget field_map "brand_website").getD "")
              (pyStr ((aget brand_context "website").getD (.str "")))
          else ad2
        if ad3.isEmpty then none
        else
          match autofillJobId with
          | .error _ => none
          | .ok job_id =>
            if job_id = "" then none
            else
              match autofillDesignId with
              | .error _ => none
              | .ok design_id =>
                if design_id = "" then none
                else
                  match exportJobId with
                  | .error _ => none
                  | .ok export_id =>
                    if export_id = "" then none
                    else
                      match exportUrls with
                      | .error _ => none
                      | .ok urls =>
                        if urls.isEmpty then none
                        else
                          let output_id := if content_id ≠ "" then content_id else uuid4
                          some ⟨rendersDir ++ "/" ++ output_id ++ ".png",
                            output_id ++ ".png", "", "png", none⟩

/-! ## Spec-side definitions and concrete fixtures used by the theorems -/

deriving instance DecidableEq for Except

/-- A URL with an http or https scheme, as C9 words it ("an http(s) URL"). -/
def isHttpUrl (url : String) : Bool := strStarts url "http://" || strStarts url "https://"

/-- A concrete environment for counterexamples and witnesses: resolution
prefixes the working directory, one allowed directory, remote fetches return
`"REMOTE"`. -/
def exEnv : PyEnv :=
  ⟨fun _ => false, fun _ => "", fun _ => none, fun _ => "TXT",
   fun p => "/cwd/" ++ p, fun _ => "REMOTE", ["/allowed"],
   fun _ => Xml.elem "svg" [] none none .nil, fun _ => "<svg/>",
   fun f _ _ _ _ => .ok ("FILE:" ++ f), fun s _ _ _ _ => .ok ("STR:" ++ s)⟩

/-- A content item in `draft` status. -/
def exItem : ContentItem := ⟨"item-1", "org-1", "draft", "", none⟩

/-- A template with no external design source. -/
def exTemplate : ContentTemplate := ⟨"tpl-1", "meme", none, none, none, none⟩

/-- A template whose design source names the Canva provider. -/
def exCanvaTemplate : ContentTemplate :=
  ⟨"tpl-2", "meme", some [("provider", .str "canva")], none, none, none⟩

/-- A successful external render result. -/
def exResult : RenderResult := ⟨"/tmp/renders/item-1.png", "item-1.png", "", "png", none⟩

/-- A successful built-in render result. -/
def exBuiltinResult : RenderResult :=
  ⟨"/tmp/renders/item-1.png", "item-1.png", "<html/>", "png", none⟩

/-- C7 spec side: the cover-rectangle condition as the claim words it —
`bg_fill` is set and not `"transparent"`. -/
def claim_bg_cover_cond (zone : Zone) : Bool :=
  truthy ((aget zone "bg_fill").getD (.str "")) &&
    ((aget zone "bg_fill").getD (.str "")) != PyVal.str "transparent"

/-- C7 spec side: the filled cover rectangle at `bg_x`/`bg_y`/`bg_width`/
`bg_height`, each defaulting to the corresponding text-rectangle value. -/
def claim_cover_rect (zone : Zone) : String :=
  "<div style=\"position:absolute;top:" ++ zoneStr zone "bg_y" ((aget zone "y").getD (.int 0)) ++
  "px;left:" ++ zoneStr zone "bg_x" ((aget zone "x").getD (.int 0)) ++
  "px;width:" ++ zoneStr zone "bg_width" ((aget zone "width").getD (.int 400)) ++
  "px;height:" ++ zoneStr zone "bg_height" ((aget zone "height").getD (.int 100)) ++
  "px;background:" ++ pyStr ((aget zone "bg_fill").getD (.str "")) ++ ";z-index:1;\"></div>"

/-- C7 spec side: the style prefix of the positioned text div — exactly the
zone's `x`/`y`/`width`/`height`, and the zone's font, color, alignment and
transform styling. -/
def claim_text_div_pre (zone : Zone) : String :=
  "<div style=\"position:absolute;top:" ++ zoneStr zone "y" (.int 0) ++
  "px;left:" ++ zoneStr zone "x" (.int 0) ++
  "px;width:" ++ zoneStr zone "width" (.int 400) ++
  "px;height:" ++ zoneStr zone "height" (.int 100) ++
  "px;font-size:" ++ zoneStr zone "font_size" (.int 20) ++
  "px;font-weight:" ++ zoneStr zone "font_weight" (.int 400) ++
  ";font-family:" ++ sqc ++ zoneStr zone "font_family" (.str "Inter, sans-serif") ++ sqc ++
  ",sans-serif;color:" ++ zoneStr zone "color" (.str "#000000") ++
  ";text-align:" ++ zoneStr zone "align" (.str "left") ++
  ";line-height:" ++ zoneStr zone "line_height" (.dec "1.4") ++
  ";text-transform:" ++ zoneStr zone "text_transform" (.str "none") ++
  ";padding:" ++ zoneStr zone "padding" (.int 0) ++
  "px;overflow:hidden;z-index:2;display:flex;align-items:flex-start;\">"

/-- C7 spec side: the absolutely positioned text div with the escaped text in
its span. -/
def claim_text_div (text : String) (zone : Zone) : String :=
  claim_text_div_pre zone ++ "<span>" ++ _html_escape text ++ "</span></div>"

/-- Single-character substitution, the character-level form of one
`str.replace` pass. -/
def escSub (p : Char) (rep : List Char) (l : List Char) : List Char :=
  l.flatMap fun c => if c = p then rep else [c]

/-- The five escape passes collapsed to one character map. -/
def escFull (c : Char) : List Char :=
  if c = '&' then "&amp;".data
  else if c = '<' then "&lt;".data
  else if c = '>' then "&gt;".data
  else if c = '"' then "&quot;".data
  else if c = Char.ofNat 39 then "&#x27;".data
  else [c]

/-- The five escape passes of `_html_escape`, at character-list level. -/
def escChain (l : List Char) : List Char :=
  escSub (Char.ofNat 39) "&#x27;".data (escSub '"' "&quot;".data (escSub '>' "&gt;".data
    (escSub '<' "&lt;".data (escSub '&' "&amp;".data l))))

/-- The tails of the five entities `html.escape` emits. -/
def entityTails : List (List Char) := ["amp;".data, "lt;".data, "gt;".data, "quot;".data, "#x27;".data]

/-- Every ampersand in the list begins one of the emitted entities — the
formalization of "no unescaped `&`". -/
def ampOk : List Char → Bool
  | [] => true
  | c :: rest =>
    (if c = '&' then entityTails.any fun e => e.isPrefixOf rest else true) && ampOk rest

/-- C6 spec side: the claim's matcher read literally — the raw `id` attribute
contains the lowercased field name, or `data-field` equals it, on a `<text>`
element. -/
def claimC6Match (field : String) (tag : String) (attrs : List (String × String)) : Bool :=
  (containsSub (strLower field).data ((aget attrs "id").getD "").data ||
    (aget attrs "data-field").getD "" == strLower field) &&
    (strEnds tag "\x7dtext" || tag == "text")

mutual
/-- Whether any element of the tree satisfies a tag/attribute predicate. -/
def anyElem (p : String → List (String × String) → Bool) : Xml → Bool
  | .elem t a _ _ cs => p t a || anyElemList p cs
/-- List form of `anyElem`. -/
def anyElemList (p : String → List (String × String) → Bool) : XmlList → Bool
  | .nil => false
  | .cons x xs => anyElem p x || anyElemList p xs
end

mutual
/-- The `.text` values of the elements whose tag satisfies `p`, in document
(preorder) order. -/
def textsBy (p : String → Bool) : Xml → List (Option String)
  | .elem t _ s _ cs => (if p t then [s] else []) ++ textsByList p cs
/-- List form of `textsBy`. -/
def textsByList (p : String → Bool) : XmlList → List (Option String)
  | .nil => []
  | .cons x xs => textsBy p x ++ textsByList p xs
end

mutual
/-- The tree with every `.text` erased — its tags, attributes, tails and
shape. -/
def stripTexts : Xml → Xml
  | .elem t a _ tl cs => .elem t a none tl (stripTextsList cs)
/-- List form of `stripTexts`. -/
def stripTextsList : XmlList → XmlList
  | .nil => .nil
  | .cons x xs => .cons (stripTexts x) (stripTextsList xs)
end

/-- C6 spec side: the expected texts of the `k` tspans in document order,
starting at line index `i` — leading tspans take the lines in order, the rest
become empty. -/
def fillSpecList (lines : List String) (i k : Nat) : List (Option String) :=
  (List.range k).map fun j => some (lines.getD (i + j) "")

/-- Setting an element's own text (the no-tspan mutation). -/
def setOwnText (v : String) : Xml → Xml
  | .elem t a _ tl cs => .elem t a (some v) tl cs

/-- A concrete SVG tree with an uppercase-id text element (no tspans) and a
text element whose only tspan sits nested below a `<g>` child. -/
def cxSvg : Xml :=
  Xml.elem "svg" [] none none (.cons
    (Xml.elem "\x7bhttp://www.w3.org/2000/svg\x7dtext" [("id", "TITLE")] (some "Old") none .nil)
    (.cons
      (Xml.elem "\x7bhttp://www.w3.org/2000/svg\x7dtext" [("id", "quote_layer")] (some "Q") none
        (.cons (Xml.elem "g" [] none none
          (.cons (Xml.elem nsTspanTag [] (some "qq") none .nil) .nil)) .nil))
      .nil))

/-- A run whose set iteration happens to follow source-literal order. -/
def ordA : List String → List String := fun l => l

/-- A run whose set iteration happens to reverse source-literal order (string
hashing is seeded per process, so any permutation is a possible run). -/
def ordB : List String → List String := fun l => l.reverse

/-- Meme content carrying two distinct truthy aliases of `top_text`. -/
def cxData : PyDict := [("title", .str "T"), ("texto_superior", .str "A"), ("setup", .str "B")]

/-- A template asset list selecting overlay mode. -/
def cxTa : Option (List Asset) := some [⟨"design_background", "https://cdn/bg.png"⟩]

/-- A structure-zones dict with one `top_text` zone. -/
def cxSz : Option Zones := some [("top_text", [("x", .int 10)])]

/-- C3 spec side: no canonical field of the type has two truthy alias values
that disagree — the condition under which alias resolution cannot depend on
set iteration order. -/
def NoAliasConflict (ct : String) (data : PyDict) : Prop :=
  ∀ fa ∈ (aget _FIELD_ALIASES ct).getD [], ∀ a ∈ fa.2, ∀ b ∈ fa.2,
    truthyAt data a = true → truthyAt data b = true → aget data a = aget data b

instance (ct : String) (data : PyDict) : Decidable (NoAliasConflict ct data) := by
  unfold NoAliasConflict
  infer_instance

/-! # Theorems -/

/-- Every `Except.ok` outcome of the built-in tail is an `_upload_and_save`
of some result (helper shared by the service theorems). -/
theorem render_builtin_path_ok_shape (upload : String → String → String)
    (b : Except PyErr RenderResult) (item : ContentItem) (out : ContentItem × RenderReturn)
    (h : render_builtin_path upload b item = .ok out) :
    ∃ r, out = _upload_and_save upload item r := by
  cases b with
  | error e => exact absurd h (by simp [render_builtin_path])
  | ok r => exact ⟨setSource r "builtin", (Except.ok.inj h).symm⟩

/-- Every `Except.ok` outcome of `render_content_item` is an
`_upload_and_save` of some result (helper shared by the service theorems). -/
theorem render_content_item_ok_shape (upload : String → String → String)
    (extRender : Except String (Option RenderResult))
    (builtinRender : Except PyErr RenderResult)
    (item : ContentItem) (template : ContentTemplate) (out : ContentItem × RenderReturn)
    (h : render_content_item upload extRender builtinRender item template = .ok out) :
    ∃ r, out = _upload_and_save upload item r := by
  unfold render_content_item at h
  split at h
  · exact absurd h (by simp)
  · split at h
    · rename_i ds
      split at h
      · split at h
        · exact ⟨_, (Except.ok.inj h).symm⟩
        · exact render_builtin_path_ok_shape _ _ _ _ h
      · exact render_builtin_path_ok_shape _ _ _ _ h
    · exact render_builtin_path_ok_shape _ _ _ _ h

/-- C8: `_upload_and_save` promotes exactly a `draft` status to `review` and
leaves every other status unchanged, always overwrites `rendered_html` with
the rendered output, and hence every successful `render_content_item` run
leaves the item with that same status update. -/
theorem upload_and_save_status_frame (upload : String → String → String)
    (item : ContentItem) (result : RenderResult) :
    ((_upload_and_save upload item result).1.status =
      if item.status = "draft" then "review" else item.status) ∧
    ((_upload_and_save upload item result).1.rendered_html = result.rendered_html) ∧
    (∀ (extRender : Except String (Option RenderResult))
       (builtinRender : Except PyErr RenderResult) (template : ContentTemplate)
       (out : ContentItem × RenderReturn),
       render_content_item upload extRender builtinRender item template = .ok out →
       out.1.status = if item.status = "draft" then "review" else item.status) := by
  refine ⟨rfl, rfl, ?_⟩
  intro extRender builtinRender template out h
  obtain ⟨r, hr⟩ := render_content_item_ok_shape _ _ _ _ _ _ h
  rw [hr]
  rfl

/-- C8 witness: a concrete successful run through the built-in path starting
from a `draft` item ends in `review`, with `rendered_html` overwritten. -/
theorem upload_and_save_status_frame_witness :
    (_upload_and_save (fun _ _ => "https://cdn/x") exItem
      (setSource exBuiltinResult "builtin")).1.status = "review" ∧
    (_upload_and_save (fun _ _ => "https://cdn/x") exItem
      (setSource exBuiltinResult "builtin")).1.rendered_html = "<html/>" := by
  have hrun : render_content_item (fun _ _ => "https://cdn/x") (.ok none)
      (.ok exBuiltinResult) exItem exTemplate =
      .ok (_upload_and_save (fun _ _ => "https://cdn/x") exItem
        (setSource exBuiltinResult "builtin")) := by decide
  have h3 := (upload_and_save_status_frame (fun _ _ => "https://cdn/x") exItem
    (setSource exBuiltinResult "builtin")).2.2 (.ok none) (.ok exBuiltinResult)
    exTemplate _ hrun
  have h2 := (upload_and_save_status_frame (fun _ _ => "https://cdn/x") exItem
    (setSource exBuiltinResult "builtin")).2.1
  refine ⟨by simpa [exItem] using h3, by simpa [setSource, exBuiltinResult] using h2⟩

/-- C2: with a design source naming provider figma or canva, an external
render that raises or returns a falsy result never propagates an error —
`render_content_item` proceeds with the built-in engine — and the returned
dict's `render_source` is the provider name exactly when the external render
succeeded, `"builtin"` otherwise. -/
theorem render_content_item_external_fallback
    (upload : String → String → String)
    (builtinRender : Except PyErr RenderResult)
    (item : ContentItem) (template : ContentTemplate) (ds : PyDict) (p : String)
    (hds : template.design_source = some ds)
    (hp : aget ds "provider" = some (.str p))
    (hprov : p = "figma" ∨ p = "canva")
    (hvt : VISUAL_TYPES.contains template.content_type = true) :
    (∀ r : RenderResult,
      render_content_item upload (.ok (some r)) builtinRender item template =
        .ok (_upload_and_save upload item (setSource r p)) ∧
      (_upload_and_save upload item (setSource r p)).2.render_source = p) ∧
    (∀ e : String,
      render_content_item upload (.error e) builtinRender item template =
        render_builtin_path upload builtinRender item) ∧
    (render_content_item upload (.ok none) builtinRender item template =
        render_builtin_path upload builtinRender item) ∧
    (∀ r : RenderResult, builtinRender = .ok r →
      render_builtin_path upload builtinRender item =
        .ok (_upload_and_save upload item (setSource r "builtin")) ∧
      (_upload_and_save upload item (setSource r "builtin")).2.render_source = "builtin") := by
  have hne : ds.isEmpty = false := by
    cases ds with
    | nil => simp [aget] at hp
    | cons a l => rfl
  have hv' : (!VISUAL_TYPES.contains template.content_type) = false := by
    rw [hvt]
    rfl
  have hcond2 : (some (PyVal.str p) == some (PyVal.str "figma") ||
      some (PyVal.str p) == some (PyVal.str "canva")) = true := by
    rcases hprov with h | h <;> simp [h]
  refine ⟨?_, ?_, ?_, ?_⟩
  · intro r
    refine ⟨?_, rfl⟩
    unfold render_content_item
    rw [hds]
    simp only [hv', Bool.false_eq_true, if_false, hne, Bool.not_false, if_true, hp, hcond2]
  · intro e
    unfold render_content_item
    rw [hds]
    simp only [hv', Bool.false_eq_true, if_false, hne, Bool.not_false, if_true, hp, hcond2]
  · unfold render_content_item
    rw [hds]
    simp only [hv', Bool.false_eq_true, if_false, hne, Bool.not_false, if_true, hp, hcond2]
  · intro r hb
    subst hb
    exact ⟨rfl, rfl⟩

/-- C2 witness: with a Canva design source, a successful external render is
persisted with `render_source = "canva"`, and a raising one falls back to the
built-in path. -/
theorem render_content_item_external_fallback_witness :
    (render_content_item (fun _ _ => "u") (.ok (some exResult)) (.ok exBuiltinResult)
        exItem exCanvaTemplate =
      .ok (_upload_and_save (fun _ _ => "u") exItem (setSource exResult "canva"))) ∧
    ((_upload_and_save (fun _ _ => "u") exItem (setSource exResult "canva")).2.render_source
      = "canva") ∧
    (render_content_item (fun _ _ => "u") (.error "boom") (.ok exBuiltinResult)
        exItem exCanvaTemplate =
      render_builtin_path (fun _ _ => "u") (.ok exBuiltinResult) exItem) := by
  have h := render_content_item_external_fallback (fun _ _ => "u") (.ok exBuiltinResult)
    exItem exCanvaTemplate [("provider", .str "canva")] "canva" (by decide) (by decide)
    (Or.inr rfl) (by decide)
  exact ⟨(h.1 exResult).1, (h.1 exResult).2, h.2.1 "boom"⟩

/-- C4 counterexample: with a stored Canva design id, a raising Canva export
call in `render_from_preview` is not caught and turned into a `None` fallback;
it is converted into a `ValueError` returned to the caller, contradicting the
claim that no rendering-service code path does so. -/
theorem render_from_preview_canva_counterexample :
    render_from_preview (fun _ _ => "u") (.error "boom") (.ok none) (.ok "<html/>")
      (fun h => .ok ⟨"p", "n", h, "png", none⟩) exItem exTemplate none (some "design-123") =
      .error (.valueError "Canva export failed: boom") := by
  decide

/-- C4 amended: external design-tool failures inside `render_canva_content`
and in `render_content_item` are caught and handled by falling back to `None`
(and hence to the built-in engine), but `render_from_preview` converts a
raising Canva export or Figma re-render into a `ValueError` raised to the
caller. -/
theorem external_failure_handling_amended :
    (∀ (upload : String → String → String) (builtinRender : Except PyErr RenderResult)
       (item : ContentItem) (template : ContentTemplate) (e : String),
       render_content_item upload (.error e) builtinRender item template =
         render_content_item upload (.ok none) builtinRender item template) ∧
    (∀ (ord : List String → List String) (config : Option PyDict) (e : String)
       (a2 a3 a4 : Except String String) (a5 : Except String (List String))
       (rd u : String) (ds cd bc : PyDict) (cid ct : String),
       render_canva_content ord config (.error e) a2 a3 a4 a5 rd u ds cd cid ct bc = none) ∧
    (∀ (ord : List String → List String) (config : Option PyDict) (e : String)
       (a1 : Except String String) (a3 a4 : Except String String)
       (a5 : Except String (List String))
       (rd u : String) (ds cd bc : PyDict) (cid ct : String),
       render_canva_content ord config a1 (.error e) a3 a4 a5 rd u ds cd cid ct bc = none) ∧
    (∀ (ord : List String → List String) (config : Option PyDict) (e : String)
       (a1 a2 a3 : Except String String)
       (a5 : Except String (List String))
       (rd u : String) (ds cd bc : PyDict) (cid ct : String),
       render_canva_content ord config a1 a2 a3 (.error e) a5 rd u ds cd cid ct bc = none) ∧
    (∀ (upload : String → String → String)
       (renderFigma : Except String (Option RenderResult)) (builtinHtml : Except PyErr String)
       (pw : String → Except PyErr RenderResult) (item : ContentItem)
       (template : ContentTemplate) (html : Option String) (cid : Option String) (e : String),
       optStrTruthy cid = true →
       render_from_preview upload (.error e) renderFigma builtinHtml pw item template html cid =
         .error (.valueError ("Canva export failed: " ++ e))) ∧
    (∀ (upload : String → String → String)
       (exportCanva : Except String (Option RenderResult)) (builtinHtml : Except PyErr String)
       (pw : String → Except PyErr RenderResult) (item : ContentItem)
       (template : ContentTemplate) (ds : PyDict) (e : String),
       template.design_source = some ds → ds ≠ [] →
       aget ds "provider" = some (.str "figma") →
       render_from_preview upload exportCanva (.error e) builtinHtml pw item template
         none none =
         .error (.valueError ("Figma render failed: " ++ e))) := by
  refine ⟨?_, ?_, ?_, ?_, ?_, ?_⟩
  · intro upload builtinRender item template e
    rfl
  · intro ord config e a2 a3 a4 a5 rd u ds cd bc cid ct
    cases config with
    | none => rfl
    | some c => simp only [render_canva_content, ite_self]
  · intro ord config e a1 a3 a4 a5 rd u ds cd bc cid ct
    cases config with
    | none => rfl
    | some c => cases a1 <;> simp only [render_canva_content, ite_self]
  · intro ord config e a1 a2 a3 a5 rd u ds cd bc cid ct
    cases config with
    | none => rfl
    | some c => cases a1 <;> cases a2 <;> cases a3 <;>
        simp only [render_canva_content, ite_self]
  · intro upload renderFigma builtinHtml pw item template html cid e hcid
    unfold render_from_preview
    simp only [hcid, if_true]
  · intro upload exportCanva builtinHtml pw item template ds e hds hne hp
    unfold render_from_preview
    have h1 : optStrTruthy (none : Option String) = false := rfl
    simp only [h1, Bool.false_eq_true, if_false, hds]
    have h2 : (!ds.isEmpty && (aget ds "provider" == some (PyVal.str "figma"))) = true := by
      simp [hp, List.isEmpty_eq_true, hne]
    simp only [h2, Bool.true_and, if_true]
    rfl

/-- C9 counterexample: `"httpx/evil.svg"` is not an http(s) URL and its
resolved path fails the allowed-directory check, yet `_load_svg_content`
raises no `PermissionError` — the `startswith("http")` test sends it to the
remote branch instead of the claimed local validation. -/
theorem load_svg_claim_counterexample :
    isHttpUrl "httpx/evil.svg" = false ∧
    _validate_local_path exEnv.allowedDirs (exEnv.resolvePath "httpx/evil.svg") = false ∧
    _load_svg_content exEnv "httpx/evil.svg" = .ok "REMOTE" := by
  decide

/-- C9 amended: for every URL that does not start with `"http"` (equivalently,
every `file://` URL or bare path), `_load_svg_content` resolves it locally and
raises `PermissionError` exactly when the resolved path's string extends none
of the allowed directories; only paths passing the check are read. -/
theorem load_svg_local_path_validation (env : PyEnv) (url : String)
    (h : strStarts url "file://" = true ∨ strStarts url "http" = false) :
    (_validate_local_path env.allowedDirs
        (env.resolvePath (if strStarts url "file://" then pyReplace url "file://" "" else url)) = false →
      _load_svg_content env url = .error (.permissionError ("Access denied: " ++
        env.resolvePath (if strStarts url "file://" then pyReplace url "file://" "" else url) ++
        " is outside allowed directories"))) ∧
    (_validate_local_path env.allowedDirs
        (env.resolvePath (if strStarts url "file://" then pyReplace url "file://" "" else url)) = true →
      _load_svg_content env url = .ok (env.readText
        (env.resolvePath (if strStarts url "file://" then pyReplace url "file://" "" else url)))) := by
  by_cases hf : strStarts url "file://" = true
  · unfold _load_svg_content
    simp only [hf, if_true, ite_true]
    exact ⟨fun hv => by simp [hv], fun hv => by simp [hv]⟩
  · have hh : strStarts url "http" = false := by
      rcases h with h | h
      · exact absurd h hf
      · exact h
    unfold _load_svg_content
    simp only [hf, hh, Bool.false_eq_true, if_false, ite_false]
    exact ⟨fun hv => by simp [hv], fun hv => by simp [hv]⟩

/-- C9 witness: a bare relative path resolving outside the allowed directories
is rejected with `PermissionError`, and a path inside them is read. -/
theorem load_svg_local_path_validation_witness :
    _load_svg_content exEnv "foo.svg" = .error (.permissionError
      "Access denied: /cwd/foo.svg is outside allowed directories") ∧
    _load_svg_content exEnv "file:///allowed-not.svg" = .error (.permissionError
      "Access denied: /cwd//allowed-not.svg is outside allowed directories") := by
  constructor
  · exact (load_svg_local_path_validation exEnv "foo.svg" (Or.inr (by decide))).1 (by decide)
  · exact (load_svg_local_path_validation exEnv "file:///allowed-not.svg" (Or.inl (by decide))).1 (by decide)

/-- C4 amended witness: a raising Canva export on a stored design id surfaces
as the concrete `ValueError`. -/
theorem external_failure_handling_amended_witness :
    render_from_preview (fun _ _ => "u") (.error "down") (.ok none) (.ok "<html/>")
      (fun h => .ok ⟨"p", "n", h, "png", none⟩) exItem exTemplate none (some "design-9") =
      .error (.valueError "Canva export failed: down") := by
  exact external_failure_handling_amended.2.2.2.2.1 (fun _ _ => "u") (.ok none) (.ok "<html/>")
    (fun h => .ok ⟨"p", "n", h, "png", none⟩) exItem exTemplate none (some "design-9") "down"
    (by decide)

/-- Helper shared by the overlay theorems: on truthy text and a non-empty
zone, `_zone_html` is the optional cover rectangle followed by the text
div. -/
theorem zone_html_unfold (text : String) (zone : Zone)
    (h1 : text ≠ "") (h2 : zone ≠ []) :
    _zone_html text zone =
      (if claim_bg_cover_cond zone then claim_cover_rect zone ++ "\n" else "") ++
        claim_text_div text zone := by
  have hcond : (decide (text = "") || zone.isEmpty) = false := by
    simp [h1, List.isEmpty_eq_false.mpr h2]
  by_cases hbg : claim_bg_cover_cond zone = true
  · have hbg' : (truthy ((aget zone "bg_fill").getD (PyVal.str "")) &&
        ((aget zone "bg_fill").getD (PyVal.str "")) != PyVal.str "transparent") = true := hbg
    simp only [_zone_html]
    rw [if_neg (by simp [hcond]), if_pos hbg', if_pos hbg]
    simp only [claim_cover_rect, claim_text_div, claim_text_div_pre, zoneStr]
  · have hbg' : ¬ ((truthy ((aget zone "bg_fill").getD (PyVal.str "")) &&
        ((aget zone "bg_fill").getD (PyVal.str "")) != PyVal.str "transparent") = true) := hbg
    simp only [_zone_html]
    rw [if_neg (by simp [hcond]), if_neg hbg', if_neg hbg, String.empty_append]
    simp only [claim_cover_rect, claim_text_div, claim_text_div_pre, zoneStr]

/-- C7: an empty text value or empty zone produces no output; otherwise the
compositor emits the absolutely positioned text div at exactly the zone's
coordinates and styling, preceded by a filled cover rectangle (at the
`bg_*` coordinates, defaulting to the text rectangle) exactly when `bg_fill`
is set and not `"transparent"`. -/
theorem overlay_zone_placement (text : String) (zone : Zone) :
    (_zone_html "" zone = "" ∧ _zone_html text [] = "") ∧
    (text ≠ "" → zone ≠ [] →
      _zone_html text zone =
        (if claim_bg_cover_cond zone then claim_cover_rect zone ++ "\n" else "") ++
          claim_text_div text zone) := by
  refine ⟨⟨rfl, ?_⟩, fun h1 h2 => zone_html_unfold text zone h1 h2⟩
  unfold _zone_html
  rw [if_pos (by simp)]

/-- C7 witness: a concrete zone with a background fill produces exactly the
cover rectangle followed by the text div. -/
theorem overlay_zone_placement_witness :
    _zone_html "Hi" [("x", .int 5), ("bg_fill", .str "#222")] =
      claim_cover_rect [("x", .int 5), ("bg_fill", .str "#222")] ++ "\n" ++
        claim_text_div "Hi" [("x", .int 5), ("bg_fill", .str "#222")] := by
  have h := (overlay_zone_placement "Hi" [("x", .int 5), ("bg_fill", .str "#222")]).2
    (by decide) (by decide)
  rw [h, if_pos (by decide)]

/-- One `str.replace` pass with a single-character pattern is the pointwise
substitution (with enough fuel). -/
theorem replaceAllFuel_single (p : Char) (rep : List Char) :
    ∀ (l : List Char) (n : Nat), l.length ≤ n →
      replaceAllFuel [p] rep n l = escSub p rep l := by
  intro l
  induction l with
  | nil =>
    intro n _
    cases n <;> simp [replaceAllFuel, escSub]
  | cons c rest ih =>
    intro n hn
    cases n with
    | zero => simp at hn
    | succ m =>
      have hm : rest.length ≤ m := by
        simpa using hn
      by_cases hpc : (p == c) = true
      · have hcp : c = p := (beq_iff_eq.mp hpc).symm
        simp only [replaceAllFuel, List.isPrefixOf, Bool.and_true, hpc, if_pos]
        rw [show [p].length - 1 = 0 from rfl]
        rw [List.drop_zero, ih m hm]
        simp [escSub, hcp]
      · have hcp : ¬ c = p := fun h => hpc (beq_iff_eq.mpr h.symm)
        simp only [replaceAllFuel, List.isPrefixOf, Bool.and_true, hpc, if_neg,
          Bool.false_eq_true, if_false]
        rw [ih m hm]
        simp [escSub, hcp]

/-- `pyReplace` with a single-character pattern is the pointwise
substitution. -/
theorem pyReplace_single (s pat rep : String) (p : Char) (hp : pat.data = [p]) :
    pyReplace s pat rep = ⟨escSub p rep.data s.data⟩ := by
  unfold pyReplace
  rw [hp, replaceAllFuel_single p rep.data s.data s.data.length (le_refl _)]

/-- The escape chain distributes over concatenation. -/
theorem escChain_append (a b : List Char) :
    escChain (a ++ b) = escChain a ++ escChain b := by
  simp [escChain, escSub, List.flatMap_append]

/-- The escape chain on a single character is the collapsed map. -/
theorem escChain_single (c : Char) : escChain [c] = escFull c := by
  unfold escChain escFull
  by_cases h1 : c = '&'
  · subst h1
    decide
  · by_cases h2 : c = '<'
    · subst h2
      decide
    · by_cases h3 : c = '>'
      · subst h3
        decide
      · by_cases h4 : c = '"'
        · subst h4
          decide
        · by_cases h5 : c = Char.ofNat 39
          · subst h5
            decide
          · simp [escSub, h1, h2, h3, h4, h5]

/-- The five sequential passes equal one pass of the collapsed map. -/
theorem escChain_eq_flatMap : ∀ l : List Char, escChain l = l.flatMap escFull := by
  intro l
  induction l with
  | nil => rfl
  | cons c rest ih =>
    calc escChain (c :: rest) = escChain ([c] ++ rest) := rfl
    _ = escChain [c] ++ escChain rest := escChain_append [c] rest
    _ = escFull c ++ rest.flatMap escFull := by rw [escChain_single, ih]
    _ = (c :: rest).flatMap escFull := (List.flatMap_cons c rest escFull).symm

/-- `_html_escape` at character level. -/
theorem html_escape_data (s : String) : (_html_escape s).data = s.data.flatMap escFull := by
  unfold _html_escape
  rw [pyReplace_single s "&" "&amp;" '&' (by decide)]
  rw [pyReplace_single _ "<" "&lt;" '<' (by decide)]
  rw [pyReplace_single _ ">" "&gt;" '>' (by decide)]
  rw [pyReplace_single _ "\"" "&quot;" '"' (by decide)]
  rw [pyReplace_single _ sqc "&#x27;" (Char.ofNat 39) (by decide)]
  exact escChain_eq_flatMap s.data

/-- No escaped character block contains a raw angle bracket. -/
theorem escFull_no_angle (c : Char) : '<' ∉ escFull c ∧ '>' ∉ escFull c := by
  unfold escFull
  by_cases h1 : c = '&'
  · subst h1
    exact (by decide)
  · by_cases h2 : c = '<'
    · subst h2
      exact (by decide)
    · by_cases h3 : c = '>'
      · subst h3
        exact (by decide)
      · by_cases h4 : c = '"'
        · subst h4
          exact (by decide)
        · by_cases h5 : c = Char.ofNat 39
          · subst h5
            exact (by decide)
          · simp [h1, h2, h3, h4, h5]
            exact ⟨fun h => h2 h.symm, fun h => h3 h.symm⟩

/-- Every ampersand in an escaped block followed by well-formed output begins
an entity. -/
theorem ampOk_append_escFull (c : Char) (l : List Char) (h : ampOk l = true) :
    ampOk (escFull c ++ l) = true := by
  by_cases h1 : c = '&'
  · subst h1
    show ampOk ('&' :: 'a' :: 'm' :: 'p' :: ';' :: l) = true
    simp [ampOk, entityTails, List.isPrefixOf, h]
  · by_cases h2 : c = '<'
    · subst h2
      show ampOk ('&' :: 'l' :: 't' :: ';' :: l) = true
      simp [ampOk, entityTails, List.isPrefixOf, h]
    · by_cases h3 : c = '>'
      · subst h3
        show ampOk ('&' :: 'g' :: 't' :: ';' :: l) = true
        simp [ampOk, entityTails, List.isPrefixOf, h]
      · by_cases h4 : c = '"'
        · subst h4
          show ampOk ('&' :: 'q' :: 'u' :: 'o' :: 't' :: ';' :: l) = true
          simp [ampOk, entityTails, List.isPrefixOf, h]
        · by_cases h5 : c = Char.ofNat 39
          · subst h5
            show ampOk ('&' :: '#' :: 'x' :: '2' :: '7' :: ';' :: l) = true
            simp [ampOk, entityTails, List.isPrefixOf, h]
          · have he : escFull c = [c] := by
              simp [escFull, h1, h2, h3, h4, h5]
            rw [he]
            show ampOk (c :: l) = true
            simp [ampOk, h1, h]

/-- Escaped output never contains an unescaped ampersand. -/
theorem ampOk_flatMap (l : List Char) : ampOk (l.flatMap escFull) = true := by
  induction l with
  | nil => rfl
  | cons c rest ih =>
    rw [List.flatMap_cons c rest escFull]
    exact ampOk_append_escFull c _ ih

/-- C10: the text of every emitted overlay zone sits in its span only in
HTML-escaped form — the span content is exactly `html.escape` of the text,
whose output contains no raw `<` or `>` and in which every `&` begins one of
the emitted entities, so content text cannot inject markup. -/
theorem overlay_text_escaping (text : String) (zone : Zone)
    (h1 : text ≠ "") (h2 : zone ≠ []) :
    (∃ pre : String, _zone_html text zone =
      pre ++ "<span>" ++ _html_escape text ++ "</span></div>") ∧
    (∀ c ∈ (_html_escape text).data, c ≠ '<' ∧ c ≠ '>') ∧
    ampOk (_html_escape text).data = true := by
  refine ⟨?_, ?_, ?_⟩
  · refine ⟨(if claim_bg_cover_cond zone then claim_cover_rect zone ++ "\n" else "") ++
      claim_text_div_pre zone, ?_⟩
    rw [zone_html_unfold text zone h1 h2]
    unfold claim_text_div
    simp [String.append_assoc]
  · intro c hc
    rw [html_escape_data] at hc
    rw [List.mem_flatMap] at hc
    obtain ⟨a, _, hca⟩ := hc
    have h := escFull_no_angle a
    constructor <;> rintro rfl
    · exact h.1 hca
    · exact h.2 hca
  · rw [html_escape_data]
    exact ampOk_flatMap text.data

/-- C10 witness: markup characters in a concrete zone text reach the span
only as entities. -/
theorem overlay_text_escaping_witness :
    _html_escape "a<b&c" = "a&lt;b&amp;c" ∧
    (∃ pre : String, _zone_html "a<b&c" [("x", .int 1)] =
      pre ++ "<span>" ++ _html_escape "a<b&c" ++ "</span></div>") ∧
    ampOk (_html_escape "a<b&c").data = true := by
  have h := overlay_text_escaping "a<b&c" [("x", .int 1)] (by decide) (by decide)
  exact ⟨by decide, h.1, h.2.2⟩

/-- Reading an updated key (helper). -/
theorem aget_aset_self {α : Type} (d : List (String × α)) (k : String) (v : α) :
    aget (aset d k v) k = some v := by
  induction d with
  | nil => simp [aset, aget]
  | cons kv rest ih =>
    obtain ⟨k', v'⟩ := kv
    by_cases h : k' = k
    · simp [aset, h, aget]
    · simp [aset, h, aget, ih]

/-- Updating one key leaves every other key unchanged (helper). -/
theorem aget_aset_ne {α : Type} (d : List (String × α)) (k k' : String) (v : α)
    (h : k' ≠ k) :
    aget (aset d k v) k' = aget d k' := by
  have hkk : ¬ k = k' := fun he => h he.symm
  induction d with
  | nil => simp [aset, aget, hkk]
  | cons kv rest ih =>
    obtain ⟨k0, v0⟩ := kv
    by_cases h0 : k0 = k
    · subst h0
      simp [aset, aget, hkk]
    · simp only [aset, h0, if_false, aget]
      by_cases h1 : k0 = k'
      · simp [h1]
      · simp [h1, ih]

/-- Equal lookups give equal truthiness (helper). -/
theorem truthyAt_congr (d d' : PyDict) (f : String) (h : aget d f = aget d' f) :
    truthyAt d f = truthyAt d' f := by
  unfold truthyAt
  rw [h]

/-- Fields not named in the alias map pass through the normalization fold
(helper). -/
theorem foldl_normalizeFieldStep_preserved (ord : List String → List String) (data : PyDict) :
    ∀ (am : List (String × List String)) (acc : PyDict × List String) (f : String),
    (∀ p ∈ am, p.1 ≠ f) →
    aget (am.foldl (normalizeFieldStep ord data) acc).1 f = aget acc.1 f := by
  intro am
  induction am with
  | nil => intro acc f _; rfl
  | cons fa rest ih =>
    intro acc f h
    rw [List.foldl_cons, ih _ f (fun p hp => h p (List.mem_cons_of_mem fa hp))]
    exact aget_aset_ne _ _ _ _ (fun he => h fa (List.mem_cons_self fa rest) he.symm)

/-- In the second branch, every alias-map field reads back as its resolved
value (helper). -/
theorem foldl_normalizeFieldStep_aget (ord : List String → List String) (data : PyDict) :
    ∀ (am : List (String × List String)) (acc : PyDict × List String)
      (f : String) (al : List String),
    (am.map Prod.fst).Nodup → (f, al) ∈ am →
    aget (am.foldl (normalizeFieldStep ord data) acc).1 f =
      some (_resolve_field data f (ord al)) := by
  intro am
  induction am with
  | nil => intro acc f al _ h; cases h
  | cons fa rest ih =>
    intro acc f al hnd hmem
    rw [List.map_cons, List.nodup_cons] at hnd
    rw [List.foldl_cons]
    rcases List.mem_cons.mp hmem with heq | hmem'
    · have hkeys : ∀ p ∈ rest, p.1 ≠ f := by
        intro p hp he
        apply hnd.1
        have h1 : fa.1 = f := by rw [← heq]
        rw [h1, ← he]
        exact List.mem_map_of_mem Prod.fst hp
      rw [foldl_normalizeFieldStep_preserved ord data rest _ f hkeys, ← heq]
      exact aget_aset_self _ _ _
    · exact ih _ f al hnd.2 hmem'

/-- Fields not named in the alias map pass through the fill-missing fold
(helper). -/
theorem foldl_fillMissingStep_preserved (ord : List String → List String) (data : PyDict) :
    ∀ (am : List (String × List String)) (acc : PyDict) (f : String),
    (∀ p ∈ am, p.1 ≠ f) →
    aget (am.foldl (fillMissingStep ord data) acc) f = aget acc f := by
  intro am
  induction am with
  | nil => intro acc f _; rfl
  | cons fa rest ih =>
    intro acc f h
    rw [List.foldl_cons, ih _ f (fun p hp => h p (List.mem_cons_of_mem fa hp))]
    have hne : f ≠ fa.1 := fun he => h fa (List.mem_cons_self fa rest) he.symm
    unfold fillMissingStep
    split
    · split
      · exact aget_aset_ne _ _ _ _ hne
      · rfl
    · rfl

/-- In the first branch, an alias-map field keeps its truthy value, else takes
a truthy resolved value, else stays as it was (helper). -/
theorem foldl_fillMissingStep_aget (ord : List String → List String) (data : PyDict) :
    ∀ (am : List (String × List String)) (acc : PyDict) (f : String) (al : List String),
    (am.map Prod.fst).Nodup → (f, al) ∈ am →
    aget acc f = aget data f →
    aget (am.foldl (fillMissingStep ord data) acc) f =
      (if truthyAt data f then aget data f
       else if truthy (_resolve_field data f (ord al)) then
         some (_resolve_field data f (ord al))
       else aget data f) := by
  intro am
  induction am with
  | nil => intro acc f al _ h; cases h
  | cons fa rest ih =>
    intro acc f al hnd hmem hacc
    rw [List.map_cons, List.nodup_cons] at hnd
    rw [List.foldl_cons]
    rcases List.mem_cons.mp hmem with heq | hmem'
    · have hkeys : ∀ p ∈ rest, p.1 ≠ f := by
        intro p hp he
        apply hnd.1
        have h1 : fa.1 = f := by rw [← heq]
        rw [h1, ← he]
        exact List.mem_map_of_mem Prod.fst hp
      rw [foldl_fillMissingStep_preserved ord data rest _ f hkeys, ← heq]
      unfold fillMissingStep
      have ht : truthyAt acc f = truthyAt data f := truthyAt_congr _ _ _ hacc
      by_cases hd : truthyAt data f = true
      · rw [if_neg (by simp [ht, hd]), if_pos hd]
        exact hacc
      · rw [if_pos (by simp [ht, hd]), if_neg hd]
        split
        · exact aget_aset_self _ _ _
        · exact hacc
    · have hne : f ≠ fa.1 := by
        intro he
        apply hnd.1
        rw [← he]
        exact List.mem_map_of_mem Prod.fst hmem'
      have hstep : aget (fillMissingStep ord data acc fa) f = aget data f := by
        unfold fillMissingStep
        split
        · split
          · rw [aget_aset_ne _ _ _ _ hne]
            exact hacc
          · exact hacc
        · exact hacc
      exact ih _ f al hnd.2 hmem' hstep

/-- The metadata loop does not touch non-metadata keys (helper). -/
theorem foldl_metaStep_preserved (data : PyDict) :
    ∀ (ms : List String) (acc : PyDict) (f : String),
    (∀ m ∈ ms, m ≠ f) →
    aget (ms.foldl (metaStep data) acc) f = aget acc f := by
  intro ms
  induction ms with
  | nil => intro acc f _; rfl
  | cons m rest ih =>
    intro acc f h
    rw [List.foldl_cons, ih _ f (fun p hp => h p (List.mem_cons_of_mem m hp))]
    have hne : f ≠ m := fun he => h m (List.mem_cons_self m rest) he.symm
    unfold metaStep
    split
    · exact aget_aset_ne _ _ _ _ hne
    · rfl

/-- The metadata loop copies each present metadata key unchanged (helper). -/
theorem metaFold_aget (data w : PyDict) (m : String) (v : PyVal)
    (hm : m ∈ _METADATA_FIELDS) (hv : aget data m = some v) :
    aget (_METADATA_FIELDS.foldl (metaStep data) w) m = some v := by
  have hm' : m = "_model" ∨ m = "_tokens" := by
    simpa [_METADATA_FIELDS] using hm
  show aget (metaStep data (metaStep data w "_model") "_tokens") m = some v
  rcases hm' with h | h
  · subst h
    unfold metaStep
    rw [hv]
    cases hto : aget data "_tokens" with
    | none => exact aget_aset_self _ _ _
    | some u =>
      rw [aget_aset_ne _ _ _ _ (by decide)]
      exact aget_aset_self _ _ _
  · subst h
    unfold metaStep
    rw [hv]
    cases hto : aget data "_model" with
    | none => exact aget_aset_self _ _ _
    | some u => exact aget_aset_self _ _ _

/-- C5 counterexample: `"cta"` is a canonical carousel field, the claim says
it maps to the empty string when no truthy source exists, but when the content
already carries a non-empty `slides` list, `_normalize_visual_data` leaves the
field absent altogether. -/
theorem normalize_claim_counterexample :
    hasKey _FIELD_ALIASES "carousel" = true ∧
    (∃ al, aget ((aget _FIELD_ALIASES "carousel").getD []) "cta" = some al) ∧
    aget (_normalize_visual_data (fun l => l) "carousel"
      [("slides", .list [.obj [("headline", "H"), ("body", "B")]])]) "cta" = none := by
  refine ⟨by decide, ⟨["cierre", "closing", "cta_text", "call_to_action"], by decide⟩, by decide⟩

/-- C5 amended: when the content does not already carry a non-empty array
field, `_normalize_visual_data` maps each canonical field to the value at the
canonical key if truthy, otherwise the value of some truthy alias, otherwise
the empty string; when the array field is already present, truthy canonical
values are kept, falsy or missing ones are filled from a truthy alias when one
resolves and are otherwise left exactly as they were (possibly absent); the
metadata keys `_model` and `_tokens` are preserved unchanged in both cases. -/
theorem normalize_visual_data_alias_resolution
    (ord : List String → List String) (ct : String) (data : PyDict)
    (am : List (String × List String)) (f : String) (al : List String)
    (ham : aget _FIELD_ALIASES ct = some am)
    (hnd : (am.map Prod.fst).Nodup)
    (hf : (f, al) ∈ am)
    (hfm : f ∉ _METADATA_FIELDS)
    (hfa : ∀ af, aget _ARRAY_FIELD_TYPES ct = some af → f ≠ af) :
    (hasExistingArray ct data = false →
      aget (_normalize_visual_data ord ct data) f =
        some (_resolve_field data f (ord al))) ∧
    (hasExistingArray ct data = true →
      aget (_normalize_visual_data ord ct data) f =
        (if truthyAt data f then aget data f
         else if truthy (_resolve_field data f (ord al)) then
           some (_resolve_field data f (ord al))
         else aget data f)) ∧
    (truthyAt data f = true →
      _resolve_field data f (ord al) = (aget data f).getD (.str "")) ∧
    (truthyAt data f = false →
      (∃ a, a ∈ ord al ∧ truthyAt data a = true ∧
        _resolve_field data f (ord al) = (aget data a).getD (.str "")) ∨
      ((∀ a ∈ ord al, truthyAt data a = false) ∧
        _resolve_field data f (ord al) = .str "")) ∧
    (∀ m v, m ∈ _METADATA_FIELDS → m ∉ am.map Prod.fst →
      (∀ af, aget _ARRAY_FIELD_TYPES ct = some af → m ≠ af) →
      aget data m = some v →
      aget (_normalize_visual_data ord ct data) m = some v) := by
  refine ⟨?_, ?_, ?_, ?_, ?_⟩
  · intro harr
    unfold _normalize_visual_data
    rw [ham]
    simp only [harr, Bool.false_eq_true, if_false]
    have hmeta : ∀ m ∈ _METADATA_FIELDS, m ≠ f := by
      intro m hm he
      exact hfm (he ▸ hm)
    rw [foldl_metaStep_preserved data _ _ f hmeta]
    cases haf : aget _ARRAY_FIELD_TYPES ct with
    | none =>
      simp only
      exact foldl_normalizeFieldStep_aget ord data am ([], []) f al hnd hf
    | some af =>
      simp only
      rw [aget_aset_ne _ _ _ _ (hfa af haf)]
      exact foldl_normalizeFieldStep_aget ord data am ([], []) f al hnd hf
  · intro harr
    unfold _normalize_visual_data
    rw [ham]
    simp only [harr, if_true]
    exact foldl_fillMissingStep_aget ord data am data f al hnd hf rfl
  · intro ht
    unfold _resolve_field
    rw [if_pos ht]
  · intro ht
    unfold _resolve_field
    rw [if_neg (by simp [ht])]
    cases hfind : (ord al).find? (fun a => truthyAt data a) with
    | none =>
      right
      refine ⟨?_, rfl⟩
      intro a ha
      have := List.find?_eq_none.mp hfind a ha
      simpa using this
    | some a =>
      left
      exact ⟨a, List.mem_of_find?_eq_some hfind,
        List.find?_some hfind, rfl⟩
  · intro m v hm hmk hmaf hv
    unfold _normalize_visual_data
    rw [ham]
    by_cases harr : hasExistingArray ct data = true
    · simp only [harr, if_true]
      have hkeys : ∀ p ∈ am, p.1 ≠ m := by
        intro p hp he
        exact hmk (he ▸ List.mem_map_of_mem Prod.fst hp)
      rw [foldl_fillMissingStep_preserved ord data am data m hkeys]
      exact hv
    · simp only [harr, if_false]
      exact metaFold_aget data _ m v hm hv

/-- C5 witness: on a meme content dict with only an alias key for `top_text`,
normalization resolves the alias, fills the rest with empty strings, and
preserves the `_tokens` metadata; the resolve characterization holds at the
same field. -/
theorem normalize_visual_data_alias_resolution_witness :
    aget (_normalize_visual_data (fun l => l) "meme"
      [("texto_superior", .str "A"), ("_tokens", .int 5)]) "top_text" = some (.str "A") ∧
    aget (_normalize_visual_data (fun l => l) "meme"
      [("texto_superior", .str "A"), ("_tokens", .int 5)]) "_tokens" = some (.int 5) := by
  have h := normalize_visual_data_alias_resolution (fun l => l) "meme"
    [("texto_superior", .str "A"), ("_tokens", .int 5)]
    ((aget _FIELD_ALIASES "meme").getD [])
    "top_text" ["texto_superior", "texto_arriba", "text_top", "setup"]
    (by decide) (by decide) (by decide) (by decide) (fun af haf => Option.noConfusion haf)
  constructor
  · have h1 := h.1 (by decide)
    rw [h1]
    decide
  · exact h.2.2.2.2 "_tokens" (.int 5) (by decide) (by decide)
      (fun af haf => Option.noConfusion haf) (by decide)

/-- C1: after validation, `generate_html` selects exactly one of the four
built-in modes in fixed priority order — SVG template mode when the template
has SVG assets; otherwise overlay mode when it has design assets and
`structure_zones` is non-empty; otherwise custom-HTML mode when
`visual_layout_override` is truthy; otherwise the default file-based Jinja2
template of the content type. -/
theorem generate_html_mode_priority (env : PyEnv) (ord : List String → List String)
    (ct : String) (content_data : PyDict) (vlo vco : Option String)
    (ta : Option (List Asset)) (bc : Option PyDict) (sz : Option Zones)
    (h1 : hasKey TEMPLATE_MAP ct = true)
    (h2 : content_data.isEmpty = false)
    (h3 : arrayFieldMissing ct (normalizedFor ord ct content_data) = false) :
    (_get_svg_assets ta ct ≠ [] →
      generate_html env ord ct content_data vlo vco ta bc sz =
        _render_svg_template env ct (normalizedFor ord ct content_data)
          (_get_svg_assets ta ct) ((aget TEMPLATE_MAP ct).getD ⟨"", "", 0, 0⟩)
          (brandFor bc)) ∧
    (_get_svg_assets ta ct = [] → _get_design_assets ta ct ≠ [] → zonesTruthy sz = true →
      generate_html env ord ct content_data vlo vco ta bc sz =
        .ok (_render_overlay_html env ct (normalizedFor ord ct content_data)
          (_get_design_assets ta ct) (sz.getD [])
          ((aget TEMPLATE_MAP ct).getD ⟨"", "", 0, 0⟩) (brandFor bc))) ∧
    (_get_svg_assets ta ct = [] →
      (_get_design_assets ta ct = [] ∨ zonesTruthy sz = false) →
      optStrTruthy vlo = true →
      generate_html env ord ct content_data vlo vco ta bc sz =
        wrapJinjaErr ct (normalizedFor ord ct content_data)
          (env.jinjaStr (vlo.getD "") (normalizedFor ord ct content_data) (vco.getD "")
            (assetsDictFor ta) (brandFor bc))) ∧
    (_get_svg_assets ta ct = [] →
      (_get_design_assets ta ct = [] ∨ zonesTruthy sz = false) →
      optStrTruthy vlo = false →
      generate_html env ord ct content_data vlo vco ta bc sz =
        wrapJinjaErr ct (normalizedFor ord ct content_data)
          (env.jinjaFile ((aget TEMPLATE_MAP ct).getD ⟨"", "", 0, 0⟩).file
            (normalizedFor ord ct content_data) (vco.getD "")
            (assetsDictFor ta) (brandFor bc))) := by
  refine ⟨?_, ?_, ?_, ?_⟩
  · intro hsvg
    simp only [generate_html]
    rw [if_neg (by simp [h1]), if_neg (by simp [h2]), if_neg (by simp [h3]),
      if_pos (by simp [List.isEmpty_eq_false.mpr hsvg])]
  · intro hsvg hdes hz
    simp only [generate_html]
    rw [if_neg (by simp [h1]), if_neg (by simp [h2]), if_neg (by simp [h3]),
      if_neg (by simp [hsvg]),
      if_pos (by simp [List.isEmpty_eq_false.mpr hdes, hz])]
  · intro hsvg hdz hv
    simp only [generate_html]
    rw [if_neg (by simp [h1]), if_neg (by simp [h2]), if_neg (by simp [h3]),
      if_neg (by simp [hsvg]),
      if_neg (by rcases hdz with h | h <;> simp [h]),
      if_pos (by simp [hv])]
  · intro hsvg hdz hv
    simp only [generate_html]
    rw [if_neg (by simp [h1]), if_neg (by simp [h2]), if_neg (by simp [h3]),
      if_neg (by simp [hsvg]),
      if_neg (by rcases hdz with h | h <;> simp [h]),
      if_neg (by simp [hv])]

/-- C1 witness: with no assets the default file template is used, and a
custom layout override takes that slot when present. -/
theorem generate_html_mode_priority_witness :
    generate_html exEnv (fun l => l) "meme" [("title", PyVal.str "T")]
      none none none none none = .ok "FILE:meme.html" ∧
    generate_html exEnv (fun l => l) "meme" [("title", PyVal.str "T")]
      (some "C") none none none none = .ok "STR:C" := by
  have h := generate_html_mode_priority exEnv (fun l => l) "meme"
    [("title", PyVal.str "T")] none none none none none (by decide) (by decide) (by decide)
  have h4 := h.2.2.2 (by decide) (Or.inl (by decide)) (by decide)
  have hb := generate_html_mode_priority exEnv (fun l => l) "meme"
    [("title", PyVal.str "T")] (some "C") none none none none (by decide) (by decide) (by decide)
  have h3 := hb.2.2.1 (by decide) (Or.inl (by decide)) (by decide)
  constructor
  · rw [h4]
    decide
  · rw [h3]
    decide

/-- Alias resolution does not depend on set-iteration order when all truthy
alias values agree (helper). -/
theorem resolve_field_order_indep (data : PyDict) (f : String) (al1 al2 : List String)
    (hp : al1.Perm al2)
    (hagree : ∀ a ∈ al1, ∀ b ∈ al1, truthyAt data a = true → truthyAt data b = true →
      aget data a = aget data b) :
    _resolve_field data f al1 = _resolve_field data f al2 := by
  unfold _resolve_field
  by_cases ht : truthyAt data f = true
  · rw [if_pos ht, if_pos ht]
  · rw [if_neg ht, if_neg ht]
    cases h1 : al1.find? (fun a => truthyAt data a) with
    | none =>
      cases h2 : al2.find? (fun a => truthyAt data a) with
      | none => rfl
      | some b =>
        have hb := List.find?_some h2
        have hbm := hp.mem_iff.mpr (List.mem_of_find?_eq_some h2)
        have hc := List.find?_eq_none.mp h1 b hbm
        rw [hb] at hc
        simp at hc
    | some a =>
      cases h2 : al2.find? (fun a => truthyAt data a) with
      | none =>
        have ha := List.find?_some h1
        have ham := hp.mem_iff.mp (List.mem_of_find?_eq_some h1)
        have hc := List.find?_eq_none.mp h2 a ham
        rw [ha] at hc
        simp at hc
      | some b =>
        have ha := List.find?_some h1
        have hb := List.find?_some h2
        have ham := List.mem_of_find?_eq_some h1
        have hbm := hp.mem_iff.mpr (List.mem_of_find?_eq_some h2)
        show (aget data a).getD (PyVal.str "") = (aget data b).getD (PyVal.str "")
        rw [hagree a ham b hbm ha hb]

/-- The normalized dict built by the second branch does not depend on the
iteration order (helper). -/
theorem normalizeFields_fst_order_indep (ord1 ord2 : List String → List String)
    (ho1 : SetOrd ord1) (ho2 : SetOrd ord2) (data : PyDict) :
    ∀ (am : List (String × List String)) (acc1 acc2 : PyDict × List String),
    acc1.1 = acc2.1 →
    (∀ fa ∈ am, ∀ a ∈ fa.2, ∀ b ∈ fa.2, truthyAt data a = true → truthyAt data b = true →
      aget data a = aget data b) →
    (am.foldl (normalizeFieldStep ord1 data) acc1).1 =
      (am.foldl (normalizeFieldStep ord2 data) acc2).1 := by
  intro am
  induction am with
  | nil =>
    intro acc1 acc2 h _
    exact h
  | cons fa rest ih =>
    intro acc1 acc2 h hagree
    rw [List.foldl_cons, List.foldl_cons]
    apply ih
    · show aset acc1.1 fa.1 (_resolve_field data fa.1 (ord1 fa.2)) =
        aset acc2.1 fa.1 (_resolve_field data fa.1 (ord2 fa.2))
      rw [h, resolve_field_order_indep data fa.1 (ord1 fa.2) (ord2 fa.2)
        ((ho1 fa.2).trans (ho2 fa.2).symm)
        (fun a ha b hb => hagree fa (List.mem_cons_self fa rest) a
          ((ho1 fa.2).mem_iff.mp ha) b ((ho1 fa.2).mem_iff.mp hb))]
    · intro fa' hfa'
      exact hagree fa' (List.mem_cons_of_mem fa hfa')

/-- Every key the second branch marks as consumed is either a canonical field
name or one of its aliases (helper). -/
theorem normalizeFields_mapped_subset (ord : List String → List String) (data : PyDict) :
    ∀ (am : List (String × List String)) (acc : PyDict × List String) (x : String),
    x ∈ (am.foldl (normalizeFieldStep ord data) acc).2 →
    x ∈ acc.2 ∨ ∃ fa, fa ∈ am ∧ (x = fa.1 ∨ x ∈ ord fa.2) := by
  intro am
  induction am with
  | nil =>
    intro acc x hx
    exact Or.inl hx
  | cons fa rest ih =>
    intro acc x hx
    rw [List.foldl_cons] at hx
    rcases ih _ x hx with h | ⟨fa', hfa', hor⟩
    · simp only [normalizeFieldStep] at h
      split at h
      · split at h
        · rcases List.mem_append.mp h with h' | h'
          · split at h'
            · rcases List.mem_append.mp h' with h'' | h''
              · exact Or.inl h''
              · exact Or.inr ⟨fa, List.mem_cons_self fa rest,
                  Or.inl (List.mem_singleton.mp h'')⟩
            · exact Or.inl h'
          · rename_i a ha
            refine Or.inr ⟨fa, List.mem_cons_self fa rest,
              Or.inr ?_⟩
            rw [List.mem_singleton.mp h']
            exact List.mem_of_find?_eq_some ha
        · split at h
          · rcases List.mem_append.mp h with h' | h'
            · exact Or.inl h'
            · exact Or.inr ⟨fa, List.mem_cons_self fa rest,
                Or.inl (List.mem_singleton.mp h')⟩
          · exact Or.inl h
      · exact Or.inl h
    · exact Or.inr ⟨fa', List.mem_cons_of_mem fa hfa', hor⟩

/-- Appending consumed-key sets that are already covered by the base skip list
does not change membership (helper). -/
theorem contains_append_absorb (base m1 m2 : List String)
    (h1 : ∀ x ∈ m1, x ∈ base) (h2 : ∀ x ∈ m2, x ∈ base) (key : String) :
    (base ++ m1).contains key = (base ++ m2).contains key := by
  by_cases hb : key ∈ base
  · simp [hb]
  · have hm1 : key ∉ m1 := fun h => hb (h1 key h)
    have hm2 : key ∉ m2 := fun h => hb (h2 key h)
    simp [hb, hm1, hm2]

/-- The leftover-array rows only depend on skip-list membership (helper). -/
theorem arrayItems_congr (ct : String) (data : PyDict) (skip1 skip2 : List String)
    (h : ∀ k, skip1.contains k = skip2.contains k) :
    arrayItems ct data skip1 = arrayItems ct data skip2 := by
  induction data with
  | nil => rfl
  | cons kv rest ih =>
    show (if skip1.contains kv.1 || strStarts kv.1 "_" || !truthy kv.2 then
        arrayItems ct rest skip1 else _) =
      (if skip2.contains kv.1 || strStarts kv.1 "_" || !truthy kv.2 then
        arrayItems ct rest skip2 else _)
    rw [h kv.1]
    split
    · exact ih
    · cases kv.2 with
      | str v => exact congrArg (fun t => _ :: t) ih
      | int v => exact ih
      | dec v => exact ih
      | list v => exact ih
      | sdict v => exact ih

/-- The first branch's fill loop does not depend on the iteration order
(helper). -/
theorem fillMissing_order_indep (ord1 ord2 : List String → List String)
    (ho1 : SetOrd ord1) (ho2 : SetOrd ord2) (data : PyDict) :
    ∀ (am : List (String × List String)) (acc : PyDict),
    (∀ fa ∈ am, ∀ a ∈ fa.2, ∀ b ∈ fa.2, truthyAt data a = true → truthyAt data b = true →
      aget data a = aget data b) →
    am.foldl (fillMissingStep ord1 data) acc = am.foldl (fillMissingStep ord2 data) acc := by
  intro am
  induction am with
  | nil =>
    intro acc _
    rfl
  | cons fa rest ih =>
    intro acc hagree
    rw [List.foldl_cons, List.foldl_cons]
    have hres : _resolve_field data fa.1 (ord1 fa.2) = _resolve_field data fa.1 (ord2 fa.2) :=
      resolve_field_order_indep data fa.1 (ord1 fa.2) (ord2 fa.2)
        ((ho1 fa.2).trans (ho2 fa.2).symm)
        (fun a ha b hb => hagree fa (List.mem_cons_self fa rest) a
          ((ho1 fa.2).mem_iff.mp ha) b ((ho1 fa.2).mem_iff.mp hb))
    have hstep : fillMissingStep ord1 data acc fa = fillMissingStep ord2 data acc fa := by
      unfold fillMissingStep
      rw [hres]
    rw [hstep]
    exact ih _ (fun fa' hfa' => hagree fa' (List.mem_cons_of_mem fa hfa'))

/-- Membership in the flattened alias lists (helper). -/
theorem mem_aliasFlat :
    ∀ (am : List (String × List String)) (fa : String × List String) (x : String),
    fa ∈ am → x ∈ fa.2 → x ∈ am.foldr (fun fa acc => fa.2 ++ acc) [] := by
  intro am
  induction am with
  | nil =>
    intro fa x h _
    cases h
  | cons g rest ih =>
    intro fa x hfa hx
    rw [List.foldr_cons]
    rcases List.mem_cons.mp hfa with he | hm
    · exact List.mem_append.mpr (Or.inl (he ▸ hx))
    · exact List.mem_append.mpr (Or.inr (ih fa x hm hx))

/-- `_normalize_visual_data` gives the same dict under any two valid
set-iteration orders, provided no canonical field has disagreeing truthy
alias values (helper). -/
theorem normalize_visual_data_order_indep (ord1 ord2 : List String → List String)
    (ho1 : SetOrd ord1) (ho2 : SetOrd ord2) (ct : String) (data : PyDict)
    (hagree : NoAliasConflict ct data) :
    _normalize_visual_data ord1 ct data = _normalize_visual_data ord2 ct data := by
  unfold _normalize_visual_data
  cases ham : aget _FIELD_ALIASES ct with
  | none => rfl
  | some am =>
    have hag : ∀ fa ∈ am, ∀ a ∈ fa.2, ∀ b ∈ fa.2,
        truthyAt data a = true → truthyAt data b = true → aget data a = aget data b := by
      have h := hagree
      unfold NoAliasConflict at h
      rw [ham] at h
      simpa using h
    by_cases harr : hasExistingArray ct data = true
    · simp only []
      rw [if_pos harr, if_pos harr]
      exact fillMissing_order_indep ord1 ord2 ho1 ho2 data am data hag
    · simp only []
      rw [if_neg harr, if_neg harr]
      have hfst : (normalizeFieldsPass ord1 data am).1 = (normalizeFieldsPass ord2 data am).1 :=
        normalizeFields_fst_order_indep ord1 ord2 ho1 ho2 data am ([], []) ([], []) rfl hag
      have hsub : ∀ (ord : List String → List String), SetOrd ord →
          ∀ x ∈ (normalizeFieldsPass ord data am).2,
          x ∈ (am.map Prod.fst ++ _METADATA_FIELDS ++
            am.foldr (fun fa acc => fa.2 ++ acc) []) := by
        intro ord ho x hx
        rcases normalizeFields_mapped_subset ord data am ([], []) x hx with h | ⟨fa, hfa, hor⟩
        · cases h
        · rcases hor with h | h
          · refine List.mem_append.mpr (Or.inl (List.mem_append.mpr (Or.inl ?_)))
            rw [h]
            exact List.mem_map_of_mem Prod.fst hfa
          · exact List.mem_append.mpr (Or.inr
              (mem_aliasFlat am fa x hfa ((ho fa.2).mem_iff.mp h)))
      cases haf : aget _ARRAY_FIELD_TYPES ct with
      | none =>
        simp only
        exact congrArg (fun x => List.foldl (metaStep data) x _METADATA_FIELDS) hfst
      | some af =>
        simp only
        have hitems : arrayItems ct data
            (am.map Prod.fst ++ _METADATA_FIELDS ++
              am.foldr (fun fa acc => fa.2 ++ acc) [] ++ (normalizeFieldsPass ord1 data am).2) =
          arrayItems ct data
            (am.map Prod.fst ++ _METADATA_FIELDS ++
              am.foldr (fun fa acc => fa.2 ++ acc) [] ++ (normalizeFieldsPass ord2 data am).2) :=
          arrayItems_congr ct data _ _
            (contains_append_absorb _ _ _ (hsub ord1 ho1) (hsub ord2 ho2))
        rw [hfst, hitems]

/-- C3 counterexample: `ordA` and `ordB` are both valid iteration orders of
the `top_text` alias set (Python string hashing is seeded per process), yet on
a content dict carrying two distinct truthy aliases, two runs of
`generate_html` on identical arguments produce different HTML. -/
theorem generate_html_determinism_counterexample :
    ordA ["texto_superior", "texto_arriba", "text_top", "setup"] =
      ["texto_superior", "texto_arriba", "text_top", "setup"] ∧
    (ordB ["texto_superior", "texto_arriba", "text_top", "setup"]).Perm
      ["texto_superior", "texto_arriba", "text_top", "setup"] ∧
    generate_html exEnv ordA "meme" cxData none none cxTa none cxSz ≠
      generate_html exEnv ordB "meme" cxData none none cxTa none cxSz := by
  refine ⟨rfl, by decide, by decide⟩

/-- C3 amended: `generate_html` is deterministic given a fixed set-iteration
order (as within one Python process); across runs with different orders the
output coincides whenever no canonical field carries two disagreeing truthy
alias values. -/
theorem generate_html_order_indep (env : PyEnv) (ord1 ord2 : List String → List String)
    (ho1 : SetOrd ord1) (ho2 : SetOrd ord2) (ct : String) (content_data : PyDict)
    (vlo vco : Option String) (ta : Option (List Asset)) (bc : Option PyDict)
    (sz : Option Zones) (hagree : NoAliasConflict ct content_data) :
    generate_html env ord1 ct content_data vlo vco ta bc sz =
      generate_html env ord2 ct content_data vlo vco ta bc sz := by
  have hn : normalizedFor ord1 ct content_data = normalizedFor ord2 ct content_data := by
    unfold normalizedFor
    split
    · exact normalize_visual_data_order_indep ord1 ord2 ho1 ho2 ct content_data hagree
    · rfl
  simp only [generate_html, hn]

/-- C3 witness: on conflict-free content the two orders agree. -/
theorem generate_html_order_indep_witness :
    generate_html exEnv ordA "meme" [("title", PyVal.str "T")] none none cxTa none cxSz =
      generate_html exEnv ordB "meme" [("title", PyVal.str "T")] none none cxTa none cxSz := by
  exact generate_html_order_indep exEnv ordA ordB (fun l => List.Perm.refl l)
    (fun l => l.reverse_perm) "meme" [("title", PyVal.str "T")] none none cxTa none cxSz
    (by decide)

/-- Peeling the first tspan off the fill specification (helper). -/
theorem fillSpecList_succ (lines : List String) (i k : Nat) :
    fillSpecList lines i (k + 1) =
      some (lines.getD i "") :: fillSpecList lines (i + 1) k := by
  unfold fillSpecList
  rw [List.range_succ_eq_map]
  simp only [List.map_cons, List.map_map, Nat.add_zero]
  congr 1
  apply List.map_congr_left
  intro j _
  simp only [Function.comp]
  congr 2
  omega

/-- Splitting the fill specification (helper). -/
theorem fillSpecList_add (lines : List String) :
    ∀ (k1 k2 i : Nat),
    fillSpecList lines i (k1 + k2) =
      fillSpecList lines i k1 ++ fillSpecList lines (i + k1) k2 := by
  intro k1
  induction k1 with
  | zero =>
    intro k2 i
    simp [fillSpecList]
  | succ m ih =>
    intro k2 i
    rw [show m + 1 + k2 = (m + k2) + 1 from by omega, fillSpecList_succ, ih k2 (i + 1),
      fillSpecList_succ, show i + (m + 1) = i + 1 + m from by omega]
    simp [List.cons_append]

mutual
/-- The tspan-filling loop assigns exactly the leading lines in document order
and empties the rest, and advances its index by the tspan count (helper). -/
theorem fillTspans_spec (tag : String) (lines : List String) (i : Nat) (x : Xml) :
    textsBy (fun t => t == tag) (fillTspans tag lines i x).1 =
      fillSpecList lines i (countTag tag x) ∧
    (fillTspans tag lines i x).2 = i + countTag tag x := by
  cases x with
  | elem t a s tl cs =>
    have hl1 := fillTspansList_spec tag lines (i + 1) cs
    have hl2 := fillTspansList_spec tag lines i cs
    by_cases h : t = tag
    · constructor
      · unfold fillTspans
        rw [if_pos h]
        show textsBy (fun t => t == tag)
            (Xml.elem t a (some (lines.getD i "")) tl (fillTspansList tag lines (i + 1) cs).1) =
          fillSpecList lines i (countTag tag (.elem t a s tl cs))
        unfold textsBy countTag
        rw [if_pos h, if_pos (by simp [h]), hl1.1, Nat.add_comm 1, fillSpecList_succ]
        rfl
      · unfold fillTspans
        rw [if_pos h]
        show (fillTspansList tag lines (i + 1) cs).2 = i + countTag tag (.elem t a s tl cs)
        rw [hl1.2]
        unfold countTag
        rw [if_pos h]
        omega
    · constructor
      · unfold fillTspans
        rw [if_neg h]
        show textsBy (fun t => t == tag)
            (Xml.elem t a s tl (fillTspansList tag lines i cs).1) =
          fillSpecList lines i (countTag tag (.elem t a s tl cs))
        unfold textsBy countTag
        rw [if_neg (by simp [h]), if_neg h, hl2.1]
        simp
      · unfold fillTspans
        rw [if_neg h]
        show (fillTspansList tag lines i cs).2 = i + countTag tag (.elem t a s tl cs)
        rw [hl2.2]
        unfold countTag
        rw [if_neg h]
        omega
/-- List form of `fillTspans_spec` (helper). -/
theorem fillTspansList_spec (tag : String) (lines : List String) (i : Nat) (cs : XmlList) :
    textsByList (fun t => t == tag) (fillTspansList tag lines i cs).1 =
      fillSpecList lines i (countTagList tag cs) ∧
    (fillTspansList tag lines i cs).2 = i + countTagList tag cs := by
  cases cs with
  | nil =>
    constructor
    · show ([] : List (Option String)) = fillSpecList lines i 0
      simp [fillSpecList]
    · show i = i + 0
      omega
  | cons x xs =>
    have h1 := fillTspans_spec tag lines i x
    have h2 := fillTspansList_spec tag lines (fillTspans tag lines i x).2 xs
    constructor
    · show textsBy (fun t => t == tag) (fillTspans tag lines i x).1 ++
          textsByList (fun t => t == tag)
            (fillTspansList tag lines (fillTspans tag lines i x).2 xs).1 =
        fillSpecList lines i (countTag tag x + countTagList tag xs)
      rw [h1.1, h2.1, h1.2, fillSpecList_add]
    · show (fillTspansList tag lines (fillTspans tag lines i x).2 xs).2 =
        i + (countTag tag x + countTagList tag xs)
      rw [h2.2, h1.2]
      omega
end

mutual
/-- Filling one tag's elements leaves the texts of every other tag unchanged
(helper). -/
theorem fillTspans_other (tag : String) (lines : List String) (p : String → Bool)
    (hp : p tag = false) (i : Nat) (x : Xml) :
    textsBy p (fillTspans tag lines i x).1 = textsBy p x := by
  cases x with
  | elem t a s tl cs =>
    have hl1 := fillTspansList_other tag lines p hp (i + 1) cs
    have hl2 := fillTspansList_other tag lines p hp i cs
    by_cases h : t = tag
    · unfold fillTspans
      rw [if_pos h]
      show textsBy p (Xml.elem t a (some (lines.getD i "")) tl
          (fillTspansList tag lines (i + 1) cs).1) = textsBy p (.elem t a s tl cs)
      unfold textsBy
      rw [if_neg (by rw [h, hp]; exact Bool.false_ne_true),
        if_neg (by rw [h, hp]; exact Bool.false_ne_true), hl1]
    · unfold fillTspans
      rw [if_neg h]
      show textsBy p (Xml.elem t a s tl (fillTspansList tag lines i cs).1) =
        textsBy p (.elem t a s tl cs)
      unfold textsBy
      rw [hl2]
/-- List form of `fillTspans_other` (helper). -/
theorem fillTspansList_other (tag : String) (lines : List String) (p : String → Bool)
    (hp : p tag = false) (i : Nat) (cs : XmlList) :
    textsByList p (fillTspansList tag lines i cs).1 = textsByList p cs := by
  cases cs with
  | nil => rfl
  | cons x xs =>
    have h1 := fillTspans_other tag lines p hp i x
    have h2 := fillTspansList_other tag lines p hp (fillTspans tag lines i x).2 xs
    show textsBy p (fillTspans tag lines i x).1 ++
        textsByList p (fillTspansList tag lines (fillTspans tag lines i x).2 xs).1 =
      textsBy p x ++ textsByList p xs
    rw [h1, h2]
end

mutual
/-- The tspan-filling loop only changes texts: tags, attributes, tails and
shape are untouched (helper). -/
theorem fillTspans_strip (tag : String) (lines : List String) (i : Nat) (x : Xml) :
    stripTexts (fillTspans tag lines i x).1 = stripTexts x := by
  cases x with
  | elem t a s tl cs =>
    have hl1 := fillTspansList_strip tag lines (i + 1) cs
    have hl2 := fillTspansList_strip tag lines i cs
    by_cases h : t = tag
    · unfold fillTspans
      rw [if_pos h]
      show stripTexts (Xml.elem t a (some (lines.getD i "")) tl
          (fillTspansList tag lines (i + 1) cs).1) = stripTexts (.elem t a s tl cs)
      unfold stripTexts
      rw [hl1]
    · unfold fillTspans
      rw [if_neg h]
      show stripTexts (Xml.elem t a s tl (fillTspansList tag lines i cs).1) =
        stripTexts (.elem t a s tl cs)
      unfold stripTexts
      rw [hl2]
/-- List form of `fillTspans_strip` (helper). -/
theorem fillTspansList_strip (tag : String) (lines : List String) (i : Nat) (cs : XmlList) :
    stripTextsList (fillTspansList tag lines i cs).1 = stripTextsList cs := by
  cases cs with
  | nil => rfl
  | cons x xs =>
    have h1 := fillTspans_strip tag lines i x
    have h2 := fillTspansList_strip tag lines (fillTspans tag lines i x).2 xs
    show XmlList.cons (stripTexts (fillTspans tag lines i x).1)
        (stripTextsList (fillTspansList tag lines (fillTspans tag lines i x).2 xs).1) =
      XmlList.cons (stripTexts x) (stripTextsList xs)
    rw [h1, h2]
end

/-- The per-match mutation preserves tags, attributes, tails and shape
(helper). -/
theorem mutateTextElem_strip (v : String) (e : Xml) :
    stripTexts (mutateTextElem v e) = stripTexts e := by
  unfold mutateTextElem
  by_cases h1 : countTag nsTspanTag e ≠ 0
  · rw [if_pos h1]
    exact fillTspans_strip nsTspanTag (linesOf v) 0 e
  · rw [if_neg h1]
    by_cases h2 : countTag "tspan" e ≠ 0
    · rw [if_pos h2]
      exact fillTspans_strip "tspan" (linesOf v) 0 e
    · rw [if_neg h2]
      cases e with
      | elem t a s tl cs => rfl

mutual
/-- Applying a text-only mutation at a preorder path preserves tags,
attributes, tails and shape (helper). -/
theorem applyAtPath_strip (f : Xml → Xml) (hf : ∀ y, stripTexts (f y) = stripTexts y)
    (p : List Nat) (x : Xml) : stripTexts (applyAtPath p f x) = stripTexts x := by
  cases p with
  | nil =>
    rw [show applyAtPath [] f x = f x from by simp [applyAtPath]]
    exact hf x
  | cons i rest =>
    cases x with
    | elem t a s tl cs =>
      rw [show applyAtPath (i :: rest) f (.elem t a s tl cs) =
          .elem t a s tl (applyAtPathList i rest f cs) from by simp [applyAtPath]]
      unfold stripTexts
      rw [applyAtPathList_strip f hf rest i cs]

/-- List form of `applyAtPath_strip` (helper). -/
theorem applyAtPathList_strip (f : Xml → Xml) (hf : ∀ y, stripTexts (f y) = stripTexts y)
    (rest : List Nat) (i : Nat) (cs : XmlList) :
    stripTextsList (applyAtPathList i rest f cs) = stripTextsList cs := by
  cases cs with
  | nil =>
    rw [show applyAtPathList i rest f .nil = .nil from by simp [applyAtPathList]]
  | cons x xs =>
    cases i with
    | zero =>
      rw [show applyAtPathList 0 rest f (.cons x xs) = .cons (applyAtPath rest f x) xs from by
        simp [applyAtPathList]]
      unfold stripTextsList
      rw [applyAtPath_strip f hf rest x]
    | succ j =>
      rw [show applyAtPathList (j + 1) rest f (.cons x xs) =
          .cons x (applyAtPathList j rest f xs) from by simp [applyAtPathList]]
      unfold stripTextsList
      rw [applyAtPathList_strip f hf rest j xs]
end

/-- Folding shape-preserving steps preserves shape (helper). -/
theorem foldl_strip_preserved {β : Type} (g : Xml → β → Xml)
    (hg : ∀ acc b, stripTexts (g acc b) = stripTexts acc) :
    ∀ (l : List β) (x : Xml), stripTexts (List.foldl g x l) = stripTexts x := by
  intro l
  induction l with
  | nil =>
    intro x
    rfl
  | cons b bs ih =>
    intro x
    rw [List.foldl_cons, ih, hg]

/-- Replacing one field preserves tags, attributes, tails and shape
(helper). -/
theorem replaceOneField_strip (field v : String) (root : Xml) :
    stripTexts (replaceOneField field v root) = stripTexts root := by
  unfold replaceOneField
  exact foldl_strip_preserved _
    (fun acc p => applyAtPath_strip (mutateTextElem v) (mutateTextElem_strip v) p acc)
    (collectMatched (strLower field) [] root) root

/-- `_replace_svg_text` preserves tags, attributes, tails and shape
(helper). -/
theorem replace_svg_strip (reps : List (String × String)) (root : Xml) :
    stripTexts (_replace_svg_text root reps) = stripTexts root := by
  unfold _replace_svg_text
  apply foldl_strip_preserved
  intro acc fv
  by_cases h : fv.2 = ""
  · rw [if_pos h]
  · rw [if_neg h]
    exact replaceOneField_strip fv.1 fv.2 acc

/-- Entries with an empty value are skipped: the fold equals the fold over
the truthy entries only (helper). -/
theorem replace_svg_filter (reps : List (String × String)) (root : Xml) :
    _replace_svg_text root reps =
      _replace_svg_text root (reps.filter fun q => q.2 != "") := by
  induction reps generalizing root with
  | nil => rfl
  | cons fv rest ih =>
    by_cases h : fv.2 = ""
    · have hf : ((fv :: rest).filter fun q => q.2 != "") =
          rest.filter fun q => q.2 != "" := by
        simp [List.filter, h]
      rw [hf, show _replace_svg_text root (fv :: rest) = _replace_svg_text root rest from by
        unfold _replace_svg_text
        rw [List.foldl_cons, if_pos h]]
      exact ih root
    · have hf : ((fv :: rest).filter fun q => q.2 != "") =
          fv :: (rest.filter fun q => q.2 != "") := by
        have hb : (fv.2 != "") = true := bne_iff_ne.mpr h
        rw [List.filter_cons, if_pos hb]
      rw [hf]
      show _replace_svg_text root (fv :: rest) =
        _replace_svg_text root (fv :: (rest.filter fun q => q.2 != ""))
      unfold _replace_svg_text
      rw [List.foldl_cons, List.foldl_cons, if_neg h]
      exact ih (replaceOneField fv.1 fv.2 root)

/-- A field with no matching element mutates nothing (helper). -/
theorem replaceOneField_no_match (field v : String) (root : Xml)
    (h : collectMatched (strLower field) [] root = []) :
    replaceOneField field v root = root := by
  unfold replaceOneField
  rw [h]
  rfl

/-- A matched element with namespaced tspan descendants: the split lines fill
the tspans in document order, leading lines first, the rest emptied; texts of
every other tag are untouched (helper). -/
theorem mutateTextElem_ns (v : String) (e : Xml) (h : countTag nsTspanTag e ≠ 0) :
    textsBy (fun t => t == nsTspanTag) (mutateTextElem v e) =
      fillSpecList (linesOf v) 0 (countTag nsTspanTag e) ∧
    ∀ p : String → Bool, p nsTspanTag = false →
      textsBy p (mutateTextElem v e) = textsBy p e := by
  unfold mutateTextElem
  rw [if_pos h]
  exact ⟨(fillTspans_spec nsTspanTag (linesOf v) 0 e).1,
    fun p hp => fillTspans_other nsTspanTag (linesOf v) p hp 0 e⟩

/-- A matched element with only plain tspan descendants: same filling on the
plain tag (helper). -/
theorem mutateTextElem_plain (v : String) (e : Xml) (h0 : countTag nsTspanTag e = 0)
    (h : countTag "tspan" e ≠ 0) :
    textsBy (fun t => t == "tspan") (mutateTextElem v e) =
      fillSpecList (linesOf v) 0 (countTag "tspan" e) ∧
    ∀ p : String → Bool, p "tspan" = false →
      textsBy p (mutateTextElem v e) = textsBy p e := by
  unfold mutateTextElem
  rw [if_neg (fun hh => hh h0), if_pos h]
  exact ⟨(fillTspans_spec "tspan" (linesOf v) 0 e).1,
    fun p hp => fillTspans_other "tspan" (linesOf v) p hp 0 e⟩

/-- A matched element with no tspan descendants gets the whole text as its
own `.text` (helper). -/
theorem mutateTextElem_none (v : String) (e : Xml) (h0 : countTag nsTspanTag e = 0)
    (h1 : countTag "tspan" e = 0) :
    mutateTextElem v e = setOwnText v e := by
  unfold mutateTextElem
  rw [if_neg (fun hh => hh h0), if_neg (fun hh => hh h1)]
  cases e with
  | elem t a s tl cs => rfl

/-- When the root itself is the unique match, processing the field is exactly
the per-match mutation of the root (helper). -/
theorem replaceOneField_root (field v : String) (t : String) (a : List (String × String))
    (s tl : Option String) (cs : XmlList)
    (hm : matchedText (strLower field) t a = true)
    (hc : collectMatchedList (strLower field) [] 0 cs = []) :
    replaceOneField field v (.elem t a s tl cs) = mutateTextElem v (.elem t a s tl cs) := by
  unfold replaceOneField
  unfold collectMatched
  rw [if_pos hm, hc]
  rfl

/-- C6 counterexample: the code matches the lowercased field name against the
LOWERCASED `id` attribute, not the raw one, and fills tspan DESCENDANTS, not
only children.  On `cxSvg`, the claim's matcher rejects the `id="TITLE"` text
element (the raw id does not contain `"title"`), yet the code replaces its
text; and the second text element's only tspan sits under a `<g>` child — not
a tspan child — yet the line fill reaches it while the element's own text
stays `"Q"`. -/
theorem replace_svg_text_claim_counterexample :
    claimC6Match "title" "\x7bhttp://www.w3.org/2000/svg\x7dtext" [("id", "TITLE")] = false ∧
    matchedText "title" "\x7bhttp://www.w3.org/2000/svg\x7dtext" [("id", "TITLE")] = true ∧
    textsBy (fun _ => true)
      (_replace_svg_text cxSvg [("title", "New"), ("quote", "QQ1\nQQ2")]) =
      [none, some "New", some "Q", none, some "QQ1"] ∧
    textsBy (fun _ => true) cxSvg = [none, some "Old", some "Q", none, some "qq"] := by
  decide

/-- C6 amended: `_replace_svg_text` only rewrites `.text` values — tags,
attributes, tails and tree shape are preserved; fields mapped to an empty
value cause no mutation; a field whose lowercased name matches no element
(lowercased-id containment or `data-field` equality on a text element)
mutates nothing; in a matched element with namespaced (else plain) tspan
descendants, the new text split on newlines fills the tspans in document
order — leading tspans take the lines, the rest become empty — and texts
under every other tag are untouched; with no tspan descendants the element's
own text is set; when the root is the unique match, processing the field is
exactly this per-match mutation. -/
theorem replace_svg_text_spec (root : Xml) (reps : List (String × String))
    (field v : String) (e : Xml) (t : String) (a : List (String × String))
    (s tl : Option String) (cs : XmlList) :
    stripTexts (_replace_svg_text root reps) = stripTexts root ∧
    _replace_svg_text root reps = _replace_svg_text root (reps.filter fun q => q.2 != "") ∧
    (collectMatched (strLower field) [] root = [] → replaceOneField field v root = root) ∧
    (countTag nsTspanTag e ≠ 0 →
      textsBy (fun u => u == nsTspanTag) (mutateTextElem v e) =
        fillSpecList (linesOf v) 0 (countTag nsTspanTag e) ∧
      ∀ p : String → Bool, p nsTspanTag = false →
        textsBy p (mutateTextElem v e) = textsBy p e) ∧
    (countTag nsTspanTag e = 0 → countTag "tspan" e ≠ 0 →
      textsBy (fun u => u == "tspan") (mutateTextElem v e) =
        fillSpecList (linesOf v) 0 (countTag "tspan" e) ∧
      ∀ p : String → Bool, p "tspan" = false →
        textsBy p (mutateTextElem v e) = textsBy p e) ∧
    (countTag nsTspanTag e = 0 → countTag "tspan" e = 0 →
      mutateTextElem v e = setOwnText v e) ∧
    (matchedText (strLower field) t a = true →
      collectMatchedList (strLower field) [] 0 cs = [] →
      replaceOneField field v (.elem t a s tl cs) =
        mutateTextElem v (.elem t a s tl cs)) := by
  exact ⟨replace_svg_strip reps root,
    replace_svg_filter reps root,
    replaceOneField_no_match field v root,
    fun h => mutateTextElem_ns v e h,
    fun h0 h => mutateTextElem_plain v e h0 h,
    fun h0 h1 => mutateTextElem_none v e h0 h1,
    fun hm hc => replaceOneField_root field v t a s tl cs hm hc⟩

/-- C6 witness: on the concrete tree `cxSvg` the shape is preserved, and a
text element without tspans takes the replacement as its own text. -/
theorem replace_svg_text_spec_witness :
    stripTexts (_replace_svg_text cxSvg [("title", "New"), ("quote", "QQ1\nQQ2")]) =
      stripTexts cxSvg ∧
    mutateTextElem "New" (Xml.elem "text" [("id", "t1")] (some "Old") none .nil) =
      setOwnText "New" (Xml.elem "text" [("id", "t1")] (some "Old") none .nil) := by
  constructor
  · exact (replace_svg_text_spec cxSvg [("title", "New"), ("quote", "QQ1\nQQ2")] "f" "v"
      cxSvg "text" [] none none .nil).1
  · exact (replace_svg_text_spec cxSvg [] "f" "New"
      (Xml.elem "text" [("id", "t1")] (some "Old") none .nil)
      "text" [] none none .nil).2.2.2.2.2.1 (by decide) (by decide)
